import Mathlib

/-!
# gemini-tool: prompt store, generation client and HTTP handlers

A shallow embedding of `database.go`, `llm.go` and `handler.go`.

* The SQLite file is a value of type `DB`: the rows of the two tables in rowid
  order together with the AUTOINCREMENT counters.  Every SQL statement of
  `database.go` is a function on `DB` that follows the statement text.  Rowids
  are 64-bit: an AUTOINCREMENT insert fails once the largest rowid is used up.
* A `time.Time` is an instant with a zone offset.  The driver stores it as the
  text of the layout `2006-01-02 15:04:05.999999999-07:00`; `ORDER BY` on a
  timestamp column compares these texts byte by byte.
* Everything the program reads from outside is an explicit input, collected in
  `Env`: the wall clock, the outcome of the remote API calls, and an optional
  engine-level failure (I/O error, locked file, full disk) for each statement a
  handler submits and for the reading of a result set.
* Go `error` values are `GoError`; a function returning `(T, error)` returns
  `Except GoError T`.
* Handlers return the HTTP response, the store after the request, and the list
  of store and client functions they called, in call order.
* The schema that `InitDB` and `migrateDB` set up (column types, NOT NULL,
  UNIQUE on `prompts.name`, AUTOINCREMENT keys) is the shape of `DB` and of the
  statements; the two functions themselves are not part of the development.
-/

namespace GeminiTool

/-! ## Go errors and strings -/

/-- Go error values: a plain error carrying its text, or an error built by
`fmt.Errorf` with a `%w` verb at the end of the format string. -/
inductive GoError where
  | text (msg : String)
  | wrapped (pre : String) (cause : GoError)
deriving DecidableEq, Repr

/-- Method `Error()` of a Go error. -/
def GoError.Error : GoError → String
  | .text msg => msg
  | .wrapped pre cause => pre ++ cause.Error

/-- Function `errors.Unwrap`. -/
def GoError.Unwrap : GoError → Option GoError
  | .text _ => none
  | .wrapped _ cause => some cause

/-- Whether the second list is an initial segment of the first. -/
def startsWith : List Char → List Char → Bool
  | _, [] => true
  | [], _ :: _ => false
  | c :: cs, d :: ds => c == d && startsWith cs ds

/-- Whether the second list occurs as a contiguous block of the first. -/
def containsChars : List Char → List Char → Bool
  | [], sub => startsWith [] sub
  | c :: cs, sub => startsWith (c :: cs) sub || containsChars cs sub

/-- Go `strings.Contains`. -/
def stringsContains (s substr : String) : Bool :=
  containsChars s.data substr.data

/-! ## Timestamps as the driver stores them -/

/-- Type `time.Time`: an instant, in nanoseconds since the start of 1970 in UTC,
and the offset of its zone, in seconds east of UTC. -/
structure Time where
  unixNano : Int
  offset : Int
deriving DecidableEq, Repr

/-- Method `UTC`: the same instant in the zone without offset. -/
def Time.UTC (t : Time) : Time :=
  { t with offset := 0 }

/-- A calendar date. -/
structure Date where
  year : Int
  month : Int
  day : Int
deriving DecidableEq, Repr

/-- The date of the proleptic Gregorian calendar that lies `days` days after
1970-01-01. -/
def civilFromDays (days : Int) : Date :=
  let z := days + 719468
  let era := z / 146097
  let doe := z % 146097
  let yoe := (doe - doe / 1460 + doe / 36524 - doe / 146096) / 365
  let doy := doe - (365 * yoe + yoe / 4 - yoe / 100)
  let mp := (5 * doy + 2) / 153
  { year := yoe + era * 400 + mp / 10
    month := mp + 3 - 12 * (mp / 10)
    day := doy - (153 * mp + 2) / 5 + 1 }

/-- The decimal digit `d` as a character. -/
def digitChar (d : Nat) : Char :=
  Char.ofNat (48 + d)

/-- The `width` lowest decimal digits of `n`, highest first. -/
def lowDigits : Nat → Nat → List Char
  | 0, _ => []
  | width + 1, n => lowDigits width (n / 10) ++ [digitChar (n % 10)]

/-- The number of decimal digits of `n`, counted with `fuel` steps at most. -/
def digitCount : Nat → Nat → Nat
  | 0, _ => 1
  | fuel + 1, n => if n < 10 then 1 else digitCount fuel (n / 10) + 1

/-- Go `appendInt`: the decimal form of `x`, padded with zeros to `width`
digits, after a minus sign when `x` is negative. -/
def appendInt (x : Int) (width : Nat) : List Char :=
  (if x < 0 then ['-'] else []) ++
    lowDigits (max width (digitCount x.natAbs x.natAbs)) x.natAbs

/-- Removal of the zeros at the end of a digit string. -/
def trimZeros (l : List Char) : List Char :=
  (l.reverse.dropWhile (· == '0')).reverse

/-- The layout element `.999999999`: nothing for a whole second, else a point
and the nine digits of the nanoseconds without the zeros at the end. -/
def fractionText (nsec : Nat) : List Char :=
  if nsec = 0 then [] else '.' :: trimZeros (lowDigits 9 nsec)

/-- The layout element `-07:00`: sign, hours and minutes of the offset. -/
def zoneText (offset : Int) : List Char :=
  let zone := offset.tdiv 60
  (if zone < 0 then '-' else '+') ::
    (appendInt ((zone.natAbs / 60 : Nat) : Int) 2 ++ [':'] ++
      appendInt ((zone.natAbs % 60 : Nat) : Int) 2)

/-- The text go-sqlite3 binds for a `time.Time`: `Format` with the layout
`2006-01-02 15:04:05.999999999-07:00`. -/
def timestampText (t : Time) : List Char :=
  let wall := t.unixNano + t.offset * 1000000000
  let secs := wall / 1000000000
  let date := civilFromDays (secs / 86400)
  let sod := secs % 86400
  appendInt date.year 4 ++ ['-'] ++ appendInt date.month 2 ++ ['-'] ++ appendInt date.day 2 ++
    [' '] ++ appendInt (sod / 3600) 2 ++ [':'] ++ appendInt (sod % 3600 / 60) 2 ++ [':'] ++
    appendInt (sod % 60) 2 ++ fractionText (wall % 1000000000).toNat ++ zoneText t.offset

/-- Comparison of two TEXT values under the BINARY collation: byte by byte, a
proper initial segment first. -/
def textLE : List Char → List Char → Bool
  | [], _ => true
  | _ :: _, [] => false
  | a :: as, b :: bs =>
    if a.toNat < b.toNat then true else if b.toNat < a.toNat then false else textLE as bs

/-- The zero `time.Time`: the start of year 1 in UTC. -/
def zeroTime : Time :=
  ⟨-62135596800000000000, 0⟩

/-- The year a `time.Time` shows in its own zone. -/
def Time.year (t : Time) : Int :=
  (civilFromDays ((t.unixNano + t.offset * 1000000000) / 1000000000 / 86400)).year

/-- What the driver hands to `rows.Scan` for a stored timestamp text: the time
the text denotes.  The zone offset comes back in whole minutes.  A text whose
year has not four digits, or whose offset is above 24 hours, matches none of
the layouts of the driver and is read as the zero time. -/
def scanTime (t : Time) : Time :=
  if 0 ≤ t.year ∧ t.year ≤ 9999 ∧ (t.offset.tdiv 60).natAbs / 60 ≤ 24 then
    { unixNano := t.unixNano + (t.offset - t.offset.tdiv 60 * 60) * 1000000000
      offset := t.offset.tdiv 60 * 60 }
  else zeroTime

/-! ## Data model (`database.go`, lines 12-33) -/

/-- A row of table `prompts`; every column is declared NOT NULL. -/
structure Prompt where
  ID : Int
  Name : String
  PromptText : String
  Separator : String
  Model : String
deriving DecidableEq, Repr

/-- A row of table `chats`.  `sql.NullInt64`, `sql.NullString` and
`sql.NullTime` are options.  In a stored row a timestamp stands for its text. -/
structure Chat where
  ID : Int
  PromptID : Option Int
  UserInput : String
  ModelOutput : Option String
  RequestTimestamp : Time
  ResponseTimestamp : Option Time
  TimeTakenMs : Option Int
  InputTokenCount : Option Int
  OutputTokenCount : Option Int
  ErrorMessage : Option String
  PromptName : Option String
  ModelUsed : Option String
deriving DecidableEq, Repr

/-- The database file: both tables in rowid order, the `sqlite_sequence`
entries of the two AUTOINCREMENT keys, and the rowid of the last insert. -/
structure DB where
  prompts : List Prompt
  chats : List Chat
  promptsSeq : Int
  chatsSeq : Int
  lastInsertRowid : Int
deriving DecidableEq, Repr

/-- What `sql.Result` exposes. -/
structure ExecResult where
  LastInsertId : Int
  RowsAffected : Int
deriving DecidableEq, Repr

/-- A data-changing SQL statement with its arguments bound. -/
abbrev Stmt := DB → Except GoError (ExecResult × DB)

/-- The largest 64-bit rowid. -/
def maxRowid : Int :=
  9223372036854775807

/-- The largest of the rowids of a table, if it has a row. -/
def largestRowid : List Int → Option Int
  | [] => none
  | id :: ids => some (ids.foldl max id)

/-- The rowid an AUTOINCREMENT table gives to a new row: one more than the
largest rowid the table holds (1 for an empty table), and at least one more
than the counter kept in `sqlite_sequence`.  There is none once the table or
the counter has reached the largest 64-bit rowid. -/
def newRowid (seq : Int) (ids : List Int) : Option Int :=
  match largestRowid ids with
  | none => if seq ≥ maxRowid then none else some (max 1 (seq + 1))
  | some last =>
    if last ≥ maxRowid ∨ seq ≥ maxRowid then none else some (max (last + 1) (seq + 1))

/-! ## SQL statements of `database.go` -/

/-- Statement `INSERT INTO prompts (name, prompt_text, separator, model) VALUES (?, ?, ?, ?)`
on a table whose `name` column is UNIQUE.  The engine picks the rowid before
it checks the constraint. -/
def insertPromptStmt (name promptText separator model : String) : Stmt := fun db =>
  match newRowid db.promptsSeq (db.prompts.map (·.ID)) with
  | none => .error (.text "database or disk is full")
  | some id =>
    if db.prompts.any (fun q => q.Name == name) then
      .error (.text "UNIQUE constraint failed: prompts.name")
    else
      .ok (⟨id, 1⟩,
        { db with
          prompts := db.prompts ++ [⟨id, name, promptText, separator, model⟩]
          promptsSeq := id
          lastInsertRowid := id })

/-- Statement `UPDATE prompts SET name = ?, prompt_text = ?, separator = ?, model = ? WHERE id = ?`.
The UNIQUE check runs only for rows the WHERE clause selects. -/
def updatePromptStmt (name promptText separator model : String) (id : Int) : Stmt := fun db =>
  if db.prompts.any (fun q => q.ID == id) &&
      db.prompts.any (fun q => q.ID != id && q.Name == name) then
    .error (.text "UNIQUE constraint failed: prompts.name")
  else
    .ok (⟨db.lastInsertRowid, ((db.prompts.filter (fun q => q.ID == id)).length : Int)⟩,
      { db with
        prompts := db.prompts.map (fun q =>
          if q.ID = id then ⟨q.ID, name, promptText, separator, model⟩ else q) })

/-- Statement `INSERT INTO chats (prompt_id, user_input, request_timestamp, prompt_name, model_used)
VALUES (?, ?, ?, ?, ?)`.  The columns not listed are NULL.  The foreign key on
`prompt_id` is declared but the connection string of `InitDB` does not switch
enforcement on. -/
def insertChatStmt (promptID : Option Int) (userInput : String) (requestTimestamp : Time)
    (promptName modelUsed : Option String) : Stmt := fun db =>
  match newRowid db.chatsSeq (db.chats.map (·.ID)) with
  | none => .error (.text "database or disk is full")
  | some id =>
    .ok (⟨id, 1⟩,
      { db with
        chats := db.chats ++ [
          { ID := id, PromptID := promptID, UserInput := userInput, ModelOutput := none,
            RequestTimestamp := requestTimestamp, ResponseTimestamp := none,
            TimeTakenMs := none, InputTokenCount := none, OutputTokenCount := none,
            ErrorMessage := none, PromptName := promptName, ModelUsed := modelUsed }]
        chatsSeq := id
        lastInsertRowid := id })

/-- Statement `UPDATE chats SET model_output = ?, response_timestamp = ?, time_taken_ms = ?,
input_token_count = ?, output_token_count = ?, error_message = ? WHERE id = ?`. -/
def updateChatStmt (modelOutput : Option String) (responseTimestamp : Option Time)
    (timeTakenMs inputTokenCount outputTokenCount : Option Int)
    (errorMessage : Option String) (id : Int) : Stmt := fun db =>
  .ok (⟨db.lastInsertRowid, ((db.chats.filter (fun c => c.ID == id)).length : Int)⟩,
    { db with
      chats := db.chats.map (fun c =>
        if c.ID = id then
          { c with
            ModelOutput := modelOutput, ResponseTimestamp := responseTimestamp,
            TimeTakenMs := timeTakenMs, InputTokenCount := inputTokenCount,
            OutputTokenCount := outputTokenCount, ErrorMessage := errorMessage }
        else c) })

/-- The WHERE clause of the backfill: `prompt_name IS NULL AND prompt_id IS NOT NULL`. -/
def needsBackfill (c : Chat) : Bool :=
  c.PromptName.isNone && c.PromptID.isSome

/-- The row a scalar subquery `SELECT ... FROM prompts WHERE prompts.id = chats.prompt_id`
reads from; the subquery is NULL when there is none. -/
def promptOfChat (prompts : List Prompt) (c : Chat) : Option Prompt :=
  prompts.find? (fun p => some p.ID == c.PromptID)

/-- The effect of the backfill UPDATE on one row of `chats`. -/
def backfillRow (prompts : List Prompt) (c : Chat) : Chat :=
  if needsBackfill c then
    { c with
      PromptName := (promptOfChat prompts c).map (·.Name)
      ModelUsed := (promptOfChat prompts c).map (·.Model) }
  else c

/-- Statement `UPDATE chats SET prompt_name = (SELECT name FROM prompts WHERE prompts.id = chats.prompt_id),
model_used = (SELECT model FROM prompts WHERE prompts.id = chats.prompt_id)
WHERE prompt_name IS NULL AND prompt_id IS NOT NULL`. -/
def backfillStmt : Stmt := fun db =>
  .ok (⟨db.lastInsertRowid, ((db.chats.filter needsBackfill).length : Int)⟩,
    { db with chats := db.chats.map (backfillRow db.prompts) })

/-- Statement `SELECT id, name, prompt_text, separator, model FROM prompts ORDER BY name`. -/
def selectPrompts (db : DB) : List Prompt :=
  db.prompts.insertionSort (fun a b => a.Name ≤ b.Name)

/-- Statement `SELECT id, name, prompt_text, separator, model FROM prompts WHERE id = ?`,
first row. -/
def selectPromptByID (db : DB) (id : Int) : Option Prompt :=
  db.prompts.find? (fun p => p.ID == id)

/-- What `rows.Scan` fills in for a row of table `chats`. -/
def scanChat (c : Chat) : Chat :=
  { c with
    RequestTimestamp := scanTime c.RequestTimestamp
    ResponseTimestamp := c.ResponseTimestamp.map scanTime }

/-- The rows of `SELECT ... FROM chats ORDER BY request_timestamp DESC` in the
order of the result set: the stored timestamp texts descend, rows with the same
text keep their rowid order. -/
def chatsByTimestampDesc (db : DB) : List Chat :=
  db.chats.insertionSort
    (fun a b => textLE (timestampText b.RequestTimestamp) (timestampText a.RequestTimestamp) = true)

/-- Statement `SELECT ... FROM chats ORDER BY request_timestamp DESC`, as scanned. -/
def selectChats (db : DB) : List Chat :=
  (chatsByTimestampDesc db).map scanChat

/-! ## `database/sql` entry points -/

/-- Method `db.Exec`: the statement is applied unless the engine fails, in which case
the store is left as it was. -/
def Exec (fault : Option GoError) (stmt : Stmt) (db : DB) : Except GoError ExecResult × DB :=
  match fault with
  | some e => (.error e, db)
  | none =>
    match stmt db with
    | .error e => (.error e, db)
    | .ok (res, db') => (.ok res, db')

/-- What can go wrong while a result set is read. -/
inductive RowsFault where
  /-- After `k` rows `rows.Next` reports the end because the engine failed; the
  error waits in `rows.Err`. -/
  | next (k : Nat)
  /-- Method `rows.Scan` fails on the row after the first `k`. -/
  | scan (k : Nat) (err : GoError)
deriving DecidableEq, Repr

/-- Method `db.Query` followed by the loop `for rows.Next()` with `rows.Scan`
in it, as `GetPrompts` and `GetChats` write it: a failed `Scan` ends the
function with its error, and `rows.Err` is not read after the loop, so a
result set that breaks off is returned as far as it came, without error. -/
def Query {α : Type} (fault : Option GoError) (rowsFault : Option RowsFault)
    (rows : DB → List α) (db : DB) : Except GoError (List α) :=
  match fault with
  | some e => .error e
  | none =>
    match rowsFault with
    | none => .ok (rows db)
    | some (.next k) => .ok ((rows db).take k)
    | some (.scan k err) => if k < (rows db).length then .error err else .ok (rows db)

/-- Method `db.QueryRow(...).Scan(...)`: `sql.ErrNoRows` when the result set is empty. -/
def QueryRow {α : Type} (fault : Option GoError) (row : DB → Option α) (db : DB) :
    Except GoError α :=
  match fault with
  | some e => .error e
  | none =>
    match row db with
    | none => .error (.text "sql: no rows in result set")
    | some a => .ok a

/-! ## Store functions (`database.go`) -/

/-- Function `backfillMissingChatInfo`, lines 78-102 (log output left out). -/
def backfillMissingChatInfo (fault : Option GoError) (db : DB) : Option GoError × DB :=
  match Exec fault backfillStmt db with
  | (.error e, db') => (some (.wrapped "failed to execute chat info backfill: " e), db')
  | (.ok _, db') => (none, db')

/-- Function `CreatePrompt`, lines 129-135. -/
def CreatePrompt (fault : Option GoError) (db : DB) (p : Prompt) : Except GoError Int × DB :=
  match Exec fault (insertPromptStmt p.Name p.PromptText p.Separator p.Model) db with
  | (.error e, db') => (.error e, db')
  | (.ok res, db') => (.ok res.LastInsertId, db')

/-- Function `GetPrompts`, lines 137-152. -/
def GetPrompts (fault : Option GoError) (rowsFault : Option RowsFault) (db : DB) :
    Except GoError (List Prompt) :=
  Query fault rowsFault selectPrompts db

/-- Function `UpdatePrompt`, lines 154-157. -/
def UpdatePrompt (fault : Option GoError) (db : DB) (p : Prompt) : Option GoError × DB :=
  match Exec fault (updatePromptStmt p.Name p.PromptText p.Separator p.Model p.ID) db with
  | (.error e, db') => (some e, db')
  | (.ok _, db') => (none, db')

/-- Function `CreateChat`, lines 159-165. -/
def CreateChat (fault : Option GoError) (db : DB) (c : Chat) : Except GoError Int × DB :=
  match Exec fault
      (insertChatStmt c.PromptID c.UserInput c.RequestTimestamp c.PromptName c.ModelUsed) db with
  | (.error e, db') => (.error e, db')
  | (.ok res, db') => (.ok res.LastInsertId, db')

/-- Function `UpdateChatOnCompletion`, lines 167-175. -/
def UpdateChatOnCompletion (fault : Option GoError) (db : DB) (c : Chat) :
    Option GoError × DB :=
  match Exec fault
      (updateChatStmt c.ModelOutput c.ResponseTimestamp c.TimeTakenMs c.InputTokenCount
        c.OutputTokenCount c.ErrorMessage c.ID) db with
  | (.error e, db') => (some e, db')
  | (.ok _, db') => (none, db')

/-- Function `GetChats`, lines 177-203. -/
def GetChats (fault : Option GoError) (rowsFault : Option RowsFault) (db : DB) :
    Except GoError (List Chat) :=
  Query fault rowsFault selectChats db

/-! ## Generation client (`llm.go`) -/

/-- A `genai.Part`: text, or one of the other part types of the SDK. -/
inductive Part where
  | Text (s : String)
  | Other (kind : String)
deriving DecidableEq, Repr

/-- The SDK type `genai.Content`. -/
structure Content where
  Parts : List Part
deriving DecidableEq, Repr

/-- The SDK type `genai.Candidate`; its `Content` is a pointer. -/
structure Candidate where
  Content : Option Content
deriving DecidableEq, Repr

/-- The SDK type `genai.UsageMetadata`. -/
structure UsageMetadata where
  PromptTokenCount : Int
  CandidatesTokenCount : Int
deriving DecidableEq, Repr

/-- The SDK type `genai.GenerateContentResponse`. -/
structure GenerateContentResponse where
  Candidates : List Candidate
  UsageMetadata : Option UsageMetadata
deriving DecidableEq, Repr

/-- The SDK type `genai.ModelInfo`, as far as `ListModels` reads it. -/
structure ModelInfo where
  Name : String
  SupportedGenerationMethods : List String
deriving DecidableEq, Repr

/-- Type `GenerateResult`, lines 15-19. -/
structure GenerateResult where
  Text : String
  InputTokenCount : Int
  OutputTokenCount : Int
deriving DecidableEq, Repr

/-- Everything a request reads from outside the store. -/
structure Env where
  /-- Engine-level failure, if any, of the k-th statement the handler submits. -/
  storeFault : Nat → Option GoError
  /-- Failure, if any, while the handler reads the rows of a listing. -/
  rowsFault : Option RowsFault
  /-- The instant `time.Now()` reads when the chat record is built (line 117). -/
  requestTime : Int
  /-- The instant `time.Now()` reads after the generation call (line 133). -/
  responseTime : Int
  /-- `time.Since(startTime).Milliseconds()` (line 134). -/
  elapsedMs : Int
  /-- Error returned by `genai.NewClient`, if any. -/
  newClientErr : Option GoError
  /-- What the k-th call of `model.GenerateContent` returns. -/
  generateContent : Nat → Except GoError GenerateContentResponse
  /-- What successive calls of `iter.Next` return before `iterator.Done`. -/
  modelIter : List (Except GoError ModelInfo)

/-- What `GenerateText` does towards the outside, in order. -/
inductive ClientEvent where
  | GenerateContent (attempt : Nat) (modelName combinedPrompt : String)
  | Sleep (nanoseconds : Nat)
deriving DecidableEq, Repr

/-- Constant `time.Second`, in nanoseconds. -/
def Second : Nat := 1000000000

/-- The variables the retry loop of `GenerateText` assigns, and its events so far. -/
structure LoopState where
  resp : Option GenerateContentResponse
  lastErr : Option GoError
  events : List ClientEvent
deriving DecidableEq, Repr

/-- The loop `for i := 0; i < 2; i++` of lines 58-67, with `remaining` iterations
left to run from index `i`. -/
def retryLoop (generateContent : Nat → Except GoError GenerateContentResponse)
    (modelName combinedPrompt : String) : Nat → Nat → LoopState → LoopState
  | 0, _, st => st
  | remaining + 1, i, st =>
    match generateContent i with
    | .ok resp =>
      { resp := some resp, lastErr := none,
        events := st.events ++ [.GenerateContent i modelName combinedPrompt] }
    | .error err =>
      retryLoop generateContent modelName combinedPrompt remaining (i + 1)
        { resp := none, lastErr := some err,
          events := st.events ++
            [.GenerateContent i modelName combinedPrompt, .Sleep (1 * Second)] }

/-- Lines 73-94 of `GenerateText`: the result read off a response. -/
def resultOfResponse (resp : GenerateContentResponse) : Except GoError GenerateResult :=
  match resp.Candidates with
  | [] => .error (.text "no content returned from API")
  | cand :: _ =>
    match cand.Content with
    | none => .error (.text "no content returned from API")
    | some content =>
      match content.Parts with
      | [] => .error (.text "no content returned from API")
      | part :: _ =>
        match part with
        | .Text resultText =>
          match resp.UsageMetadata with
          | some usage =>
            .ok { Text := resultText, InputTokenCount := usage.PromptTokenCount,
                  OutputTokenCount := usage.CandidatesTokenCount }
          | none => .ok { Text := resultText, InputTokenCount := 0, OutputTokenCount := 0 }
        | .Other _ => .error (.text "unexpected response part type")

/-- Function `GenerateText`, lines 46-95: the result and the events in order.  A nil
response after the loop cannot arise with two iterations; Go would stop there
with a nil dereference. -/
def GenerateText (env : Env) (modelName combinedPrompt : String) :
    Except GoError GenerateResult × List ClientEvent :=
  match env.newClientErr with
  | some err => (.error (.wrapped "failed to create genai client: " err), [])
  | none =>
    let st := retryLoop env.generateContent modelName combinedPrompt 2 0 ⟨none, none, []⟩
    match st.lastErr with
    | some lastErr => (.error (.wrapped "API request failed after retries: " lastErr), st.events)
    | none =>
      match st.resp with
      | none => (.error (.text "invalid memory address or nil pointer dereference"), st.events)
      | some resp => (resultOfResponse resp, st.events)

/-- The loop of `ListModels`, lines 31-42. -/
def listModelsLoop : List (Except GoError ModelInfo) → List String →
    Except GoError (List String)
  | [], models => .ok models
  | .error err :: _, _ => .error (.wrapped "failed to iterate models: " err)
  | .ok m :: rest, models =>
    listModelsLoop rest
      (if m.SupportedGenerationMethods.contains "generateContent" then models ++ [m.Name]
       else models)

/-- Function `ListModels`, lines 21-44. -/
def ListModels (env : Env) : Except GoError (List String) :=
  match env.newClientErr with
  | some err => .error (.wrapped "failed to create genai client: " err)
  | none => listModelsLoop env.modelIter []

/-! ## HTTP handlers (`handler.go`) -/

/-- Type `Handler`, lines 13-16. -/
structure Handler where
  DB : GeminiTool.DB
  APIKey : String

/-- An HTTP request as a handler reads it: the method, and what
`json.NewDecoder(r.Body).Decode` yields (`none` when it returns an error). -/
structure Request (α : Type) where
  Method : String
  Body : Option α

/-- Type `GenerateRequest`, lines 83-87.  A field missing from the JSON body has
its zero value. -/
structure GenerateRequest where
  PromptID : Int
  UserInput : String
  Model : String
deriving DecidableEq, Repr

/-- What a handler writes as response body: the message given to `http.Error`,
or the value given to the JSON encoder. -/
inductive Body where
  | error (msg : String)
  | prompts (ps : List Prompt)
  | prompt (p : Prompt)
  | chat (c : Chat)
  | chats (cs : List Chat)
  | models (ms : List String)
deriving DecidableEq, Repr

/-- Status code and body of a response. -/
structure Response where
  status : Nat
  body : Body
deriving DecidableEq, Repr

/-- A call of a store or client function made by a handler. -/
inductive Call where
  | GetPrompts
  | CreatePrompt (p : Prompt)
  | UpdatePrompt (p : Prompt)
  | QueryRow (promptID : Int)
  | CreateChat (c : Chat)
  | GenerateText (modelName combinedPrompt : String)
  | UpdateChatOnCompletion (c : Chat)
  | GetChats
  | ListModels
deriving DecidableEq, Repr

/-- What a handler run produces. -/
structure Outcome where
  resp : Response
  db : DB
  calls : List Call
deriving DecidableEq, Repr

/-- Function `isUniqueConstraintError`, lines 22-24. -/
def isUniqueConstraintError (err : GoError) : Bool :=
  stringsContains err.Error "UNIQUE constraint failed"

/-- Function `PromptsHandler`, lines 26-81. -/
def PromptsHandler (h : Handler) (r : Request Prompt) (env : Env) : Outcome :=
  if r.Method = "GET" then
    match GetPrompts (env.storeFault 0) env.rowsFault h.DB with
    | .error _ => ⟨⟨500, .error "\x7b\"error\":\"Failed to get prompts\"\x7d"⟩, h.DB, [.GetPrompts]⟩
    | .ok prompts => ⟨⟨200, .prompts prompts⟩, h.DB, [.GetPrompts]⟩
  else if r.Method = "POST" then
    match r.Body with
    | none => ⟨⟨400, .error "\x7b\"error\":\"Invalid request body\"\x7d"⟩, h.DB, []⟩
    | some p =>
      match CreatePrompt (env.storeFault 0) h.DB p with
      | (.error err, db) =>
        if isUniqueConstraintError err then
          ⟨⟨409, .error "\x7b\"error\":\"A prompt with this name already exists.\"\x7d"⟩,
            db, [.CreatePrompt p]⟩
        else
          ⟨⟨500, .error "\x7b\"error\":\"Failed to create prompt\"\x7d"⟩, db, [.CreatePrompt p]⟩
      | (.ok id, db) => ⟨⟨201, .prompt { p with ID := id }⟩, db, [.CreatePrompt p]⟩
  else if r.Method = "PUT" then
    match r.Body with
    | none => ⟨⟨400, .error "\x7b\"error\":\"Invalid request body\"\x7d"⟩, h.DB, []⟩
    | some p =>
      if p.ID = 0 then
        ⟨⟨400, .error "\x7b\"error\":\"Prompt ID is required for update\"\x7d"⟩, h.DB, []⟩
      else
        match UpdatePrompt (env.storeFault 0) h.DB p with
        | (some err, db) =>
          if isUniqueConstraintError err then
            ⟨⟨409, .error "\x7b\"error\":\"A prompt with this name already exists.\"\x7d"⟩,
              db, [.UpdatePrompt p]⟩
          else
            ⟨⟨500, .error "\x7b\"error\":\"Failed to update prompt\"\x7d"⟩, db, [.UpdatePrompt p]⟩
        | (none, db) => ⟨⟨200, .prompt p⟩, db, [.UpdatePrompt p]⟩
  else
    ⟨⟨405, .error "\x7b\"error\":\"Method not allowed\"\x7d"⟩, h.DB, []⟩

/-- The chat record `GenerateHandler` builds at lines 109-120. -/
def newChat (p : Prompt) (req : GenerateRequest) (requestTime : Int) : Chat :=
  let modelToUse := if req.Model ≠ "" then req.Model else p.Model
  { ID := 0, PromptID := some p.ID, UserInput := req.UserInput, ModelOutput := none,
    RequestTimestamp := Time.UTC ⟨requestTime, 0⟩, ResponseTimestamp := none,
    TimeTakenMs := none, InputTokenCount := none, OutputTokenCount := none,
    ErrorMessage := none, PromptName := some p.Name, ModelUsed := some modelToUse }

/-- Function `GenerateHandler`, lines 89-152. -/
def GenerateHandler (h : Handler) (r : Request GenerateRequest) (env : Env) : Outcome :=
  if r.Method ≠ "POST" then
    ⟨⟨405, .error "\x7b\"error\":\"Method not allowed\"\x7d"⟩, h.DB, []⟩
  else
    match r.Body with
    | none => ⟨⟨400, .error "\x7b\"error\":\"Invalid request body\"\x7d"⟩, h.DB, []⟩
    | some req =>
      match QueryRow (env.storeFault 0) (fun db => selectPromptByID db req.PromptID) h.DB with
      | .error _ =>
        ⟨⟨404, .error "\x7b\"error\":\"Prompt not found\"\x7d"⟩, h.DB, [.QueryRow req.PromptID]⟩
      | .ok p =>
        let modelToUse := if req.Model ≠ "" then req.Model else p.Model
        let chat := newChat p req env.requestTime
        match CreateChat (env.storeFault 1) h.DB chat with
        | (.error _, db1) =>
          ⟨⟨500, .error "\x7b\"error\":\"Failed to log chat request\"\x7d"⟩, db1,
            [.QueryRow req.PromptID, .CreateChat chat]⟩
        | (.ok chatID, db1) =>
          let chat1 := { chat with ID := chatID }
          let combinedPrompt := p.PromptText ++ "\n" ++ p.Separator ++ "\n" ++ req.UserInput
          let result := (GenerateText env modelToUse combinedPrompt).1
          let chat2 :=
            { chat1 with
              ResponseTimestamp := some (Time.UTC ⟨env.responseTime, 0⟩)
              TimeTakenMs := some env.elapsedMs }
          match result with
          | .error err =>
            let chat3 := { chat2 with ErrorMessage := some err.Error }
            ⟨⟨500, .error err.Error⟩, (UpdateChatOnCompletion (env.storeFault 2) db1 chat3).2,
              [.QueryRow req.PromptID, .CreateChat chat, .GenerateText modelToUse combinedPrompt,
                .UpdateChatOnCompletion chat3]⟩
          | .ok res =>
            let chat3 :=
              { chat2 with
                ModelOutput := some res.Text, InputTokenCount := some res.InputTokenCount,
                OutputTokenCount := some res.OutputTokenCount }
            ⟨⟨200, .chat chat3⟩, (UpdateChatOnCompletion (env.storeFault 2) db1 chat3).2,
              [.QueryRow req.PromptID, .CreateChat chat, .GenerateText modelToUse combinedPrompt,
                .UpdateChatOnCompletion chat3]⟩

/-- Function `ChatsHandler`, lines 154-166. -/
def ChatsHandler (h : Handler) (method : String) (env : Env) : Outcome :=
  if method ≠ "GET" then
    ⟨⟨405, .error "\x7b\"error\":\"Method not allowed\"\x7d"⟩, h.DB, []⟩
  else
    match GetChats (env.storeFault 0) env.rowsFault h.DB with
    | .error _ => ⟨⟨500, .error "\x7b\"error\":\"Failed to get chats\"\x7d"⟩, h.DB, [.GetChats]⟩
    | .ok chats => ⟨⟨200, .chats chats⟩, h.DB, [.GetChats]⟩

/-- Function `ModelsHandler`, lines 168-177.  The body never reads `r.Method`. -/
def ModelsHandler (h : Handler) (_method : String) (env : Env) : Outcome :=
  match ListModels env with
  | .error _ =>
    ⟨⟨500, .error "\x7b\"error\":\"Failed to fetch models from Google API\"\x7d"⟩, h.DB,
      [.ListModels]⟩
  | .ok models => ⟨⟨200, .models models⟩, h.DB, [.ListModels]⟩

/-- The store after a series of generate requests served one after the other. -/
def serveGenerates (apiKey : String) :
    DB → List (Request GenerateRequest × Env) → DB
  | db, [] => db
  | db, (r, env) :: rest =>
    serveGenerates apiKey (GenerateHandler ⟨db, apiKey⟩ r env).db rest

/-! ## Sample values -/

/-- The template of the example scenario, stored under id 1. -/
def summarize : Prompt :=
  { ID := 1, Name := "summarize", PromptText := "Summarize:", Separator := "---",
    Model := "model-a" }

/-- A store holding the template `summarize` and no chat record. -/
def sampleDB : DB :=
  { prompts := [summarize], chats := [], promptsSeq := 1, chatsSeq := 0, lastInsertRowid := 1 }

/-- An API response carrying one text part and usage figures. -/
def sampleResponse : GenerateContentResponse :=
  { Candidates := [⟨some ⟨[.Text "short text"]⟩⟩],
    UsageMetadata := some ⟨12, 3⟩ }

/-- An environment without failures: the API answers at once, the clock reads
`requestTime` and then `requestTime + 1`. -/
def calmEnv (requestTime : Int) : Env :=
  { storeFault := fun _ => none
    rowsFault := none
    requestTime := requestTime
    responseTime := requestTime + 1
    elapsedMs := 0
    newClientErr := none
    generateContent := fun _ => .ok sampleResponse
    modelIter := [.ok ⟨"models/model-a", ["generateContent"]⟩,
                  .ok ⟨"models/embed", ["embedContent"]⟩] }

/-- The generate request of the example scenario. -/
def sampleRequest : GenerateRequest :=
  { PromptID := 1, UserInput := "long text", Model := "" }

/-- Whether an event is a call of the remote `GenerateContent`. -/
def ClientEvent.isCall : ClientEvent → Bool
  | .GenerateContent _ _ _ => true
  | .Sleep _ => false

/-- An environment whose first API call fails and whose second one answers. -/
def flakyEnv : Env :=
  { calmEnv 100 with
    generateContent := fun k =>
      if k = 0 then .error (.text "googleapi: Error 503") else .ok sampleResponse }

/-- An environment in which the first statement of the request fails in the
engine with the given text. -/
def faultyEnv (msg : String) : Env :=
  { calmEnv 100 with storeFault := fun k => if k = 0 then some (.text msg) else none }

/-- A store as an older version of the program left it: three chat rows without
the denormalised columns, the second of them without a prompt reference and the
third one referring to a prompt that is not stored. -/
def legacyDB : DB :=
  { prompts := [summarize]
    chats := [
      { ID := 1, PromptID := some 1, UserInput := "a", ModelOutput := some "b",
        RequestTimestamp := ⟨10, 0⟩, ResponseTimestamp := some ⟨11, 0⟩, TimeTakenMs := some 1,
        InputTokenCount := some 1, OutputTokenCount := some 1, ErrorMessage := none,
        PromptName := none, ModelUsed := none },
      { ID := 2, PromptID := none, UserInput := "c", ModelOutput := some "d",
        RequestTimestamp := ⟨20, 0⟩, ResponseTimestamp := some ⟨21, 0⟩, TimeTakenMs := some 1,
        InputTokenCount := some 1, OutputTokenCount := some 1, ErrorMessage := none,
        PromptName := none, ModelUsed := none },
      { ID := 3, PromptID := some 5, UserInput := "e", ModelOutput := some "f",
        RequestTimestamp := ⟨30, 0⟩, ResponseTimestamp := some ⟨31, 0⟩, TimeTakenMs := some 1,
        InputTokenCount := some 1, OutputTokenCount := some 1, ErrorMessage := none,
        PromptName := none, ModelUsed := none }]
    promptsSeq := 1, chatsSeq := 3, lastInsertRowid := 3 }

/-- Whether every request of a series, served in turn, adds one row to table
`chats`. -/
def eachCreatesChat (apiKey : String) :
    DB → List (Request GenerateRequest × Env) → Bool
  | _, [] => true
  | db, (r, env) :: rest =>
    decide ((GenerateHandler ⟨db, apiKey⟩ r env).db.chats.length = db.chats.length + 1) &&
      eachCreatesChat apiKey (GenerateHandler ⟨db, apiKey⟩ r env).db rest

/-- Two generate requests between which the wall clock is set back: the first
one reads 200, the second one 100. -/
def clockSetBack : List (Request GenerateRequest × Env) :=
  [(⟨"POST", some sampleRequest⟩, calmEnv 200), (⟨"POST", some sampleRequest⟩, calmEnv 100)]

/-- Three generate requests served while the wall clock advances. -/
def clockAdvancing : List (Request GenerateRequest × Env) :=
  [(⟨"POST", some sampleRequest⟩, calmEnv 100),
    (⟨"POST", some sampleRequest⟩, { flakyEnv with requestTime := 200 }),
    (⟨"POST", some sampleRequest⟩, calmEnv 300)]

/-- A prompt to be created. -/
def translate : Prompt :=
  { ID := 0, Name := "translate", PromptText := "Translate:", Separator := "---",
    Model := "model-a" }

/-- A store whose prompts table has used the largest rowid. -/
def usedUpDB : DB :=
  { prompts := [{ summarize with ID := maxRowid }], chats := [], promptsSeq := maxRowid,
    chatsSeq := 0, lastInsertRowid := maxRowid }

/-- A store whose prompts table has one rowid left. -/
def oneRowidLeftDB : DB :=
  { prompts := [{ summarize with ID := maxRowid - 1 }], chats := [],
    promptsSeq := maxRowid - 1, chatsSeq := 0, lastInsertRowid := maxRowid - 1 }

/-- A store with two chat rows: the first one written at noon UTC, the second
one an hour later by a caller in the zone seven hours west of UTC. -/
def mixedZoneDB : DB :=
  { prompts := [summarize]
    chats := [
      { ID := 1, PromptID := some 1, UserInput := "a", ModelOutput := none,
        RequestTimestamp := ⟨1709208000000000000, 0⟩, ResponseTimestamp := none,
        TimeTakenMs := none, InputTokenCount := none, OutputTokenCount := none,
        ErrorMessage := none, PromptName := some "summarize", ModelUsed := some "model-a" },
      { ID := 2, PromptID := some 1, UserInput := "b", ModelOutput := none,
        RequestTimestamp := ⟨1709211600000000000, -25200⟩, ResponseTimestamp := none,
        TimeTakenMs := none, InputTokenCount := none, OutputTokenCount := none,
        ErrorMessage := none, PromptName := some "summarize", ModelUsed := some "model-a" }]
    promptsSeq := 1, chatsSeq := 2, lastInsertRowid := 2 }

/-- Two generate requests, served in the last second of the year 9999 and in
the first second of the year 10000. -/
def yearTenThousand : List (Request GenerateRequest × Env) :=
  [(⟨"POST", some sampleRequest⟩, calmEnv 253402300799000000000),
    (⟨"POST", some sampleRequest⟩, calmEnv 253402300800000000000)]

/-! ## Theorems -/

/-- C1: a POST to GenerateHandler with a decodable body, a prompt id that
resolves to a stored template and a successful CreateChat makes, whatever
GenerateText returns, exactly one CreateChat call followed by exactly one
UpdateChatOnCompletion call for the id CreateChat returned; the record of that
completion write has a response timestamp and a time taken, and is either
completed (output and both token counts set, no error message) or failed
(error message set, no output). -/
theorem generate_one_create_then_one_completion (h : Handler) (req : GenerateRequest)
    (env : Env) (p : Prompt) (chatID : Int) (db1 : DB)
    (hp : QueryRow (env.storeFault 0) (fun db => selectPromptByID db req.PromptID) h.DB = .ok p)
    (hc : CreateChat (env.storeFault 1) h.DB (newChat p req env.requestTime) = (.ok chatID, db1)) :
    ∃ (m cp : String) (c : Chat),
      (GenerateHandler h ⟨"POST", some req⟩ env).calls =
        [.QueryRow req.PromptID, .CreateChat (newChat p req env.requestTime),
          .GenerateText m cp, .UpdateChatOnCompletion c] ∧
      (GenerateHandler h ⟨"POST", some req⟩ env).db =
        (UpdateChatOnCompletion (env.storeFault 2) db1 c).2 ∧
      c.ID = chatID ∧ c.ResponseTimestamp ≠ none ∧ c.TimeTakenMs ≠ none ∧
      ((∃ res, (GenerateText env m cp).1 = .ok res ∧
          c.ModelOutput ≠ none ∧ c.InputTokenCount ≠ none ∧ c.OutputTokenCount ≠ none ∧
          c.ErrorMessage = none) ∨
       (∃ err, (GenerateText env m cp).1 = .error err ∧
          c.ErrorMessage ≠ none ∧ c.ModelOutput = none)) := by
  cases hg : (GenerateText env (if req.Model ≠ "" then req.Model else p.Model)
      (p.PromptText ++ "\n" ++ p.Separator ++ "\n" ++ req.UserInput)).1 with
  | error err =>
    refine ⟨if req.Model ≠ "" then req.Model else p.Model,
      p.PromptText ++ "\n" ++ p.Separator ++ "\n" ++ req.UserInput,
      { newChat p req env.requestTime with
        ID := chatID, ResponseTimestamp := some (Time.UTC ⟨env.responseTime, 0⟩),
        TimeTakenMs := some env.elapsedMs, ErrorMessage := some err.Error },
      ?_, ?_, rfl, by simp, by simp, Or.inr ⟨err, hg, by simp, by simp [newChat]⟩⟩
    · simp only [GenerateHandler, hp, hc, hg]
      simp
    · simp only [GenerateHandler, hp, hc, hg]
      simp
  | ok res =>
    refine ⟨if req.Model ≠ "" then req.Model else p.Model,
      p.PromptText ++ "\n" ++ p.Separator ++ "\n" ++ req.UserInput,
      { newChat p req env.requestTime with
        ID := chatID, ResponseTimestamp := some (Time.UTC ⟨env.responseTime, 0⟩),
        TimeTakenMs := some env.elapsedMs, ModelOutput := some res.Text,
        InputTokenCount := some res.InputTokenCount,
        OutputTokenCount := some res.OutputTokenCount },
      ?_, ?_, rfl, by simp, by simp,
      Or.inl ⟨res, hg, by simp, by simp, by simp, by simp [newChat]⟩⟩
    · simp only [GenerateHandler, hp, hc, hg]
      simp
    · simp only [GenerateHandler, hp, hc, hg]
      simp

/-- Witness for C1: the example request against the sample store. -/
theorem generate_one_create_then_one_completion_witness :
    QueryRow ((calmEnv 100).storeFault 0)
        (fun db => selectPromptByID db sampleRequest.PromptID) sampleDB = .ok summarize ∧
    (CreateChat ((calmEnv 100).storeFault 1) sampleDB
        (newChat summarize sampleRequest (calmEnv 100).requestTime)).1 = .ok 1 ∧
    ∃ (m cp : String) (c : Chat),
      (GenerateHandler ⟨sampleDB, "key"⟩ ⟨"POST", some sampleRequest⟩ (calmEnv 100)).calls =
        [.QueryRow sampleRequest.PromptID,
          .CreateChat (newChat summarize sampleRequest (calmEnv 100).requestTime),
          .GenerateText m cp, .UpdateChatOnCompletion c] ∧
      (GenerateHandler ⟨sampleDB, "key"⟩ ⟨"POST", some sampleRequest⟩ (calmEnv 100)).db =
        (UpdateChatOnCompletion ((calmEnv 100).storeFault 2)
          (CreateChat ((calmEnv 100).storeFault 1) sampleDB
            (newChat summarize sampleRequest (calmEnv 100).requestTime)).2 c).2 ∧
      c.ID = 1 ∧ c.ResponseTimestamp ≠ none ∧ c.TimeTakenMs ≠ none ∧
      ((∃ res, (GenerateText (calmEnv 100) m cp).1 = .ok res ∧
          c.ModelOutput ≠ none ∧ c.InputTokenCount ≠ none ∧ c.OutputTokenCount ≠ none ∧
          c.ErrorMessage = none) ∨
       (∃ err, (GenerateText (calmEnv 100) m cp).1 = .error err ∧
          c.ErrorMessage ≠ none ∧ c.ModelOutput = none)) :=
  ⟨rfl, rfl,
    generate_one_create_then_one_completion ⟨sampleDB, "key"⟩ sampleRequest (calmEnv 100)
      summarize 1 _ rfl rfl⟩

/-- C2: a POST to GenerateHandler with a decodable body whose prompt id matches
no row of table prompts is answered with status 404 and the body
"Prompt not found"; CreateChat and GenerateText are not called and the store is
left as it was. -/
theorem generate_unknown_prompt_not_found (h : Handler) (req : GenerateRequest) (env : Env)
    (hno : ∀ p ∈ h.DB.prompts, p.ID ≠ req.PromptID) :
    (GenerateHandler h ⟨"POST", some req⟩ env).resp =
      ⟨404, .error "\x7b\"error\":\"Prompt not found\"\x7d"⟩ ∧
    (GenerateHandler h ⟨"POST", some req⟩ env).db = h.DB ∧
    (∀ c, Call.CreateChat c ∉ (GenerateHandler h ⟨"POST", some req⟩ env).calls) ∧
    (∀ m cp, Call.GenerateText m cp ∉ (GenerateHandler h ⟨"POST", some req⟩ env).calls) := by
  have hfind : selectPromptByID h.DB req.PromptID = none := by
    simp only [selectPromptByID, List.find?_eq_none]
    intro p hp
    simpa using hno p hp
  have hq : ∃ e, QueryRow (env.storeFault 0)
      (fun db => selectPromptByID db req.PromptID) h.DB = .error e := by
    unfold QueryRow
    cases env.storeFault 0 with
    | some e => exact ⟨e, rfl⟩
    | none => simp [hfind]
  obtain ⟨e, he⟩ := hq
  simp [GenerateHandler, he]

/-- Witness for C2: prompt id 7 against the sample store, which holds id 1 only. -/
theorem generate_unknown_prompt_not_found_witness :
    (∀ p ∈ sampleDB.prompts, p.ID ≠ 7) ∧
    (GenerateHandler ⟨sampleDB, "key"⟩ ⟨"POST", some ⟨7, "long text", ""⟩⟩ (calmEnv 100)).resp =
      ⟨404, .error "\x7b\"error\":\"Prompt not found\"\x7d"⟩ ∧
    (GenerateHandler ⟨sampleDB, "key"⟩ ⟨"POST", some ⟨7, "long text", ""⟩⟩ (calmEnv 100)).db =
      sampleDB :=
  have hno : ∀ p ∈ sampleDB.prompts, p.ID ≠ (⟨7, "long text", ""⟩ : GenerateRequest).PromptID := by
    decide
  ⟨hno,
    (generate_unknown_prompt_not_found ⟨sampleDB, "key"⟩ ⟨7, "long text", ""⟩ (calmEnv 100) hno).1,
    (generate_unknown_prompt_not_found ⟨sampleDB, "key"⟩ ⟨7, "long text", ""⟩ (calmEnv 100) hno).2.1⟩

/-- C3: with a client that was created, GenerateText calls the remote
GenerateContent at most twice.  The second call is made exactly when the first
one returned an error and comes after a sleep of one second.  A first call that
returns a response is never followed by another call, also when the response
has no candidate, no content, no part or a first part that is not text, in
which case the result is an error.  Two failed calls give an error that wraps
the error of the second call; a response whose first part is text gives that
text with the token counts of the response. -/
theorem generateText_two_attempts (env : Env) (m cp : String)
    (hclient : env.newClientErr = none) :
    ((GenerateText env m cp).2.filter ClientEvent.isCall).length ≤ 2 ∧
    (ClientEvent.GenerateContent 1 m cp ∈ (GenerateText env m cp).2 ↔
      ∃ e, env.generateContent 0 = .error e) ∧
    (∀ r, env.generateContent 0 = .ok r →
      GenerateText env m cp = (resultOfResponse r, [.GenerateContent 0 m cp])) ∧
    (∀ e1 r, env.generateContent 0 = .error e1 → env.generateContent 1 = .ok r →
      GenerateText env m cp =
        (resultOfResponse r,
          [.GenerateContent 0 m cp, .Sleep (1 * Second), .GenerateContent 1 m cp])) ∧
    (∀ e1 e2, env.generateContent 0 = .error e1 → env.generateContent 1 = .error e2 →
      (GenerateText env m cp).2 =
        [.GenerateContent 0 m cp, .Sleep (1 * Second), .GenerateContent 1 m cp,
          .Sleep (1 * Second)] ∧
      ∃ e, (GenerateText env m cp).1 = .error e ∧ e.Unwrap = some e2) ∧
    (∀ r, (r.Candidates = [] ∨ (∃ cs, r.Candidates = ⟨none⟩ :: cs) ∨
        (∃ cs, r.Candidates = ⟨some ⟨[]⟩⟩ :: cs) ∨
        (∃ kind ps cs, r.Candidates = ⟨some ⟨.Other kind :: ps⟩⟩ :: cs)) →
      ∃ e, resultOfResponse r = .error e ∧ e.Unwrap = none) ∧
    (∀ r text ps cs, r.Candidates = ⟨some ⟨.Text text :: ps⟩⟩ :: cs →
      resultOfResponse r =
        .ok ⟨text, (r.UsageMetadata.map (·.PromptTokenCount)).getD 0,
          (r.UsageMetadata.map (·.CandidatesTokenCount)).getD 0⟩) := by
  refine ⟨?_, ?_, ?_, ?_, ?_, ?_, ?_⟩
  · cases h0 : env.generateContent 0 <;> cases h1 : env.generateContent 1 <;>
      simp [GenerateText, hclient, retryLoop, h0, h1, ClientEvent.isCall]
  · cases h0 : env.generateContent 0 <;> cases h1 : env.generateContent 1 <;>
      simp [GenerateText, hclient, retryLoop, h0, h1]
  · intro r h0
    simp [GenerateText, hclient, retryLoop, h0]
  · intro e1 r h0 h1
    simp [GenerateText, hclient, retryLoop, h0, h1]
  · intro e1 e2 h0 h1
    simp [GenerateText, hclient, retryLoop, h0, h1, GoError.Unwrap]
  · rintro r (hr | ⟨cs, hr⟩ | ⟨cs, hr⟩ | ⟨kind, ps, cs, hr⟩) <;>
      simp [resultOfResponse, hr, GoError.Unwrap]
  · intro r text ps cs hr
    cases hu : r.UsageMetadata <;> simp [resultOfResponse, hr, hu]

/-- Witness for C3: the first call fails, the second one answers. -/
theorem generateText_two_attempts_witness :
    flakyEnv.newClientErr = none ∧
    GenerateText flakyEnv "model-a" "Summarize:\n---\nlong text" =
      (.ok ⟨"short text", 12, 3⟩,
        [.GenerateContent 0 "model-a" "Summarize:\n---\nlong text", .Sleep (1 * Second),
          .GenerateContent 1 "model-a" "Summarize:\n---\nlong text"]) :=
  ⟨rfl,
    (generateText_two_attempts flakyEnv "model-a" "Summarize:\n---\nlong text" rfl).2.2.2.1
      (.text "googleapi: Error 503") sampleResponse rfl rfl⟩

/-- PromptsHandler, GenerateHandler and ChatsHandler answer a method outside
their allowed set with status 405 and the body "Method not allowed", call
nothing and leave the store as it was. -/
theorem method_not_allowed_where_checked (h : Handler) (env : Env) (method : String) :
    (∀ body, method ≠ "GET" → method ≠ "POST" → method ≠ "PUT" →
      PromptsHandler h ⟨method, body⟩ env =
        ⟨⟨405, .error "\x7b\"error\":\"Method not allowed\"\x7d"⟩, h.DB, []⟩) ∧
    (∀ body, method ≠ "POST" →
      GenerateHandler h ⟨method, body⟩ env =
        ⟨⟨405, .error "\x7b\"error\":\"Method not allowed\"\x7d"⟩, h.DB, []⟩) ∧
    (method ≠ "GET" →
      ChatsHandler h method env =
        ⟨⟨405, .error "\x7b\"error\":\"Method not allowed\"\x7d"⟩, h.DB, []⟩) := by
  refine ⟨?_, ?_, ?_⟩
  · intro body h1 h2 h3
    simp [PromptsHandler, h1, h2, h3]
  · intro body h1
    simp [GenerateHandler, h1]
  · intro h1
    simp [ChatsHandler, h1]

/-- C4, at the handler that departs from it: ModelsHandler serves a POST like a
GET.  It calls ListModels and answers 200 with the model list; for no method
and no environment does it answer 405 or skip the call of ListModels. -/
theorem modelsHandler_serves_any_method :
    (ModelsHandler ⟨sampleDB, "key"⟩ "POST" (calmEnv 100)).resp =
      ⟨200, .models ["models/model-a"]⟩ ∧
    (ModelsHandler ⟨sampleDB, "key"⟩ "POST" (calmEnv 100)).calls = [.ListModels] ∧
    (∀ (h : Handler) (method : String) (env : Env),
      (ModelsHandler h method env).resp.status ≠ 405 ∧
      (ModelsHandler h method env).calls = [.ListModels]) := by
  refine ⟨rfl, rfl, ?_⟩
  intro h method env
  unfold ModelsHandler
  cases ListModels env <;> simp

/-- C8: for a PUT to PromptsHandler, an undecodable body gives 400; a decoded
body with id zero gives 400 without a call of UpdatePrompt and without a change
of the store; when UpdatePrompt returns an error the status is 409 exactly when
the error text contains "UNIQUE constraint failed" and 500 otherwise; when
UpdatePrompt returns no error the status is 200 and the body is the decoded
record. -/
theorem put_prompt_status (h : Handler) (env : Env) :
    (PromptsHandler h ⟨"PUT", none⟩ env).resp.status = 400 ∧
    (∀ p : Prompt, p.ID = 0 →
      (PromptsHandler h ⟨"PUT", some p⟩ env).resp.status = 400 ∧
      (PromptsHandler h ⟨"PUT", some p⟩ env).calls = [] ∧
      (PromptsHandler h ⟨"PUT", some p⟩ env).db = h.DB) ∧
    (∀ (p : Prompt) (err : GoError) (db : DB), p.ID ≠ 0 →
      UpdatePrompt (env.storeFault 0) h.DB p = (some err, db) →
      ((PromptsHandler h ⟨"PUT", some p⟩ env).resp.status = 409 ↔
        stringsContains err.Error "UNIQUE constraint failed" = true) ∧
      (stringsContains err.Error "UNIQUE constraint failed" = false →
        (PromptsHandler h ⟨"PUT", some p⟩ env).resp.status = 500)) ∧
    (∀ (p : Prompt) (db : DB), p.ID ≠ 0 →
      UpdatePrompt (env.storeFault 0) h.DB p = (none, db) →
      (PromptsHandler h ⟨"PUT", some p⟩ env).resp = ⟨200, .prompt p⟩) := by
  refine ⟨?_, ?_, ?_, ?_⟩
  · simp [PromptsHandler]
  · intro p hp
    simp [PromptsHandler, hp]
  · intro p err db hp hu
    cases hc : stringsContains err.Error "UNIQUE constraint failed" <;>
      simp [PromptsHandler, hp, hu, isUniqueConstraintError, hc]
  · intro p db hp hu
    simp [PromptsHandler, hp, hu]

/-- Witness for C8: an engine failure that is no uniqueness violation gives 500. -/
theorem put_prompt_status_witness :
    summarize.ID ≠ 0 ∧
    UpdatePrompt ((faultyEnv "database is locked").storeFault 0) sampleDB summarize =
      (some (.text "database is locked"), sampleDB) ∧
    stringsContains (GoError.text "database is locked").Error "UNIQUE constraint failed" =
      false ∧
    (PromptsHandler ⟨sampleDB, "key"⟩ ⟨"PUT", some summarize⟩
      (faultyEnv "database is locked")).resp.status = 500 :=
  ⟨by decide, rfl, rfl,
    ((put_prompt_status ⟨sampleDB, "key"⟩ (faultyEnv "database is locked")).2.2.1
      summarize (.text "database is locked") sampleDB (by decide) rfl).2 rfl⟩

/-- C10: a PUT to PromptsHandler whose decoded body has a non-zero id that
matches no row of table prompts, submitted without engine failure: UpdatePrompt
returns no error, the store is left as it was, and the answer is 200 with the
record of the request. -/
theorem put_unknown_id_reports_success (h : Handler) (p : Prompt) (env : Env)
    (hid : p.ID ≠ 0) (hno : ∀ q ∈ h.DB.prompts, q.ID ≠ p.ID)
    (hfault : env.storeFault 0 = none) :
    UpdatePrompt (env.storeFault 0) h.DB p = (none, h.DB) ∧
    (PromptsHandler h ⟨"PUT", some p⟩ env).resp = ⟨200, .prompt p⟩ ∧
    (PromptsHandler h ⟨"PUT", some p⟩ env).db = h.DB ∧
    (PromptsHandler h ⟨"PUT", some p⟩ env).calls = [.UpdatePrompt p] := by
  have hany : h.DB.prompts.any (fun q => q.ID == p.ID) = false := by
    simp only [List.any_eq_false]
    intro q hq
    simpa using hno q hq
  have hmap : h.DB.prompts.map (fun q =>
      if q.ID = p.ID then (⟨q.ID, p.Name, p.PromptText, p.Separator, p.Model⟩ : Prompt) else q) =
      h.DB.prompts := by
    conv_rhs => rw [← List.map_id h.DB.prompts]
    apply List.map_congr_left
    intro q hq
    simp [hno q hq]
  have hu : UpdatePrompt (env.storeFault 0) h.DB p = (none, h.DB) := by
    simp [UpdatePrompt, Exec, hfault, updatePromptStmt, hany, hmap]
  refine ⟨hu, ?_, ?_, ?_⟩ <;> simp [PromptsHandler, hid, hu]

/-- Witness for C10: id 9 against the sample store, which holds id 1 only. -/
theorem put_unknown_id_reports_success_witness :
    (9 : Int) ≠ 0 ∧ (∀ q ∈ sampleDB.prompts, q.ID ≠ 9) ∧
    (PromptsHandler ⟨sampleDB, "key"⟩ ⟨"PUT", some ⟨9, "other", "Translate:", "---", "model-b"⟩⟩
      (calmEnv 100)).resp = ⟨200, .prompt ⟨9, "other", "Translate:", "---", "model-b"⟩⟩ ∧
    (PromptsHandler ⟨sampleDB, "key"⟩ ⟨"PUT", some ⟨9, "other", "Translate:", "---", "model-b"⟩⟩
      (calmEnv 100)).db = sampleDB :=
  have hno : ∀ q ∈ sampleDB.prompts,
      q.ID ≠ (⟨9, "other", "Translate:", "---", "model-b"⟩ : Prompt).ID := by decide
  ⟨by decide, hno,
    (put_unknown_id_reports_success ⟨sampleDB, "key"⟩ ⟨9, "other", "Translate:", "---", "model-b"⟩
      (calmEnv 100) (by decide) hno rfl).2.1,
    (put_unknown_id_reports_success ⟨sampleDB, "key"⟩ ⟨9, "other", "Translate:", "---", "model-b"⟩
      (calmEnv 100) (by decide) hno rfl).2.2.1⟩

/-- The run of GenerateHandler once the template is found and the chat record
is stored: four calls in a fixed order, and the store after the completion write. -/
theorem generateHandler_after_create (h : Handler) (req : GenerateRequest) (env : Env)
    (p : Prompt) (chatID : Int) (db1 : DB)
    (hp : QueryRow (env.storeFault 0) (fun db => selectPromptByID db req.PromptID) h.DB = .ok p)
    (hc : CreateChat (env.storeFault 1) h.DB (newChat p req env.requestTime) = (.ok chatID, db1)) :
    ∃ c : Chat, c.ID = chatID ∧
      (GenerateHandler h ⟨"POST", some req⟩ env).calls =
        [.QueryRow req.PromptID, .CreateChat (newChat p req env.requestTime),
          .GenerateText (if req.Model ≠ "" then req.Model else p.Model)
            (p.PromptText ++ "\n" ++ p.Separator ++ "\n" ++ req.UserInput),
          .UpdateChatOnCompletion c] ∧
      (GenerateHandler h ⟨"POST", some req⟩ env).db =
        (UpdateChatOnCompletion (env.storeFault 2) db1 c).2 := by
  cases hg : (GenerateText env (if req.Model ≠ "" then req.Model else p.Model)
      (p.PromptText ++ "\n" ++ p.Separator ++ "\n" ++ req.UserInput)).1 with
  | error err =>
    refine ⟨{ newChat p req env.requestTime with
        ID := chatID, ResponseTimestamp := some (Time.UTC ⟨env.responseTime, 0⟩),
        TimeTakenMs := some env.elapsedMs, ErrorMessage := some err.Error }, rfl, ?_, ?_⟩
    · simp only [GenerateHandler, hp, hc, hg]
      simp
    · simp only [GenerateHandler, hp, hc, hg]
      simp
  | ok res =>
    refine ⟨{ newChat p req env.requestTime with
        ID := chatID, ResponseTimestamp := some (Time.UTC ⟨env.responseTime, 0⟩),
        TimeTakenMs := some env.elapsedMs, ModelOutput := some res.Text,
        InputTokenCount := some res.InputTokenCount,
        OutputTokenCount := some res.OutputTokenCount }, rfl, ?_, ?_⟩
    · simp only [GenerateHandler, hp, hc, hg]
      simp
    · simp only [GenerateHandler, hp, hc, hg]
      simp

/-- The running maximum is at least its start value and at least every element. -/
theorem foldl_max_bounds (ids : List Int) (seq : Int) :
    seq ≤ ids.foldl max seq ∧ ∀ x ∈ ids, x ≤ ids.foldl max seq := by
  induction ids generalizing seq with
  | nil => simp
  | cons a rest ih =>
    obtain ⟨h1, h2⟩ := ih (max seq a)
    refine ⟨le_trans (le_max_left _ _) h1, ?_⟩
    intro x hx
    rcases List.mem_cons.mp hx with rfl | hx
    · exact le_trans (le_max_right _ _) h1
    · exact h2 x hx

/-- The running maximum stays below a bound that the start value and every
element stay below. -/
theorem foldl_max_lt (ids : List Int) (seq b : Int) (hseq : seq < b)
    (hids : ∀ x ∈ ids, x < b) : ids.foldl max seq < b := by
  induction ids generalizing seq with
  | nil => simpa using hseq
  | cons a rest ih =>
    simp only [List.foldl_cons]
    apply ih
    · exact max_lt hseq (hids a (List.mem_cons_self _ _))
    · exact fun x hx => hids x (List.mem_cons_of_mem _ hx)

/-- A new rowid lies above the counter and above every rowid of the table,
within the 64-bit range, and below every bound that leaves room for it. -/
theorem newRowid_some (seq : Int) (ids : List Int) (id : Int)
    (h : newRowid seq ids = some id) :
    seq < id ∧ (∀ x ∈ ids, x < id) ∧ id ≤ maxRowid ∧
    ∀ b : Int, 1 ≤ b → seq < b → (∀ x ∈ ids, x < b) → id ≤ b := by
  cases ids with
  | nil =>
    simp only [newRowid, largestRowid] at h
    split at h
    · exact absurd h (by simp)
    · rename_i hlt
      have hid : id = max 1 (seq + 1) := (Option.some.inj h).symm
      refine ⟨?_, by simp, ?_, ?_⟩
      · rw [hid]
        exact lt_of_lt_of_le (by omega) (le_max_right _ _)
      · rw [hid]
        exact max_le (by unfold maxRowid; omega) (by omega)
      · intro b hb hs _
        rw [hid]
        exact max_le (by omega) (by omega)
  | cons a rest =>
    simp only [newRowid, largestRowid] at h
    obtain ⟨hb1, hb2⟩ := foldl_max_bounds rest a
    split at h
    · exact absurd h (by simp)
    · rename_i hlt
      have hid : id = max (rest.foldl max a + 1) (seq + 1) := (Option.some.inj h).symm
      have hge1 : rest.foldl max a + 1 ≤ id := by rw [hid]; exact le_max_left _ _
      have hge2 : seq + 1 ≤ id := by rw [hid]; exact le_max_right _ _
      refine ⟨by omega, ?_, ?_, ?_⟩
      · intro x hx
        rcases List.mem_cons.mp hx with rfl | hx
        · omega
        · have := hb2 x hx
          omega
      · rw [hid]
        exact max_le (by omega) (by omega)
      · intro b _ hs hids
        have := foldl_max_lt rest a b (hids a (List.mem_cons_self _ _))
          (fun x hx => hids x (List.mem_cons_of_mem _ hx))
        rw [hid]
        exact max_le (by omega) (by omega)

/-- There is a new rowid as long as the counter and the rowids of the table
are below the largest 64-bit rowid. -/
theorem newRowid_exists (seq : Int) (ids : List Int) (hseq : seq < maxRowid)
    (hids : ∀ x ∈ ids, x < maxRowid) : ∃ id, newRowid seq ids = some id := by
  cases ids with
  | nil =>
    refine ⟨max 1 (seq + 1), ?_⟩
    simp only [newRowid, largestRowid]
    rw [if_neg (by omega)]
  | cons a rest =>
    have := foldl_max_lt rest a maxRowid (hids a (List.mem_cons_self _ _))
      (fun x hx => hids x (List.mem_cons_of_mem _ hx))
    refine ⟨max (rest.foldl max a + 1) (seq + 1), ?_⟩
    simp only [newRowid, largestRowid]
    rw [if_neg (by omega)]

/-- C5, as amended: when two prompts carry the same name, no stored prompt has
it, and at least two rowids of table prompts are unused (counter and rowids
below 2^63 - 2), the first CreatePrompt succeeds with an id no stored prompt
has, the second fails with an error that isUniqueConstraintError accepts, table
prompts has exactly one more row after both calls, and POST on PromptsHandler
answers 201 and then 409. -/
theorem create_prompt_twice_conflict (db : DB) (p1 p2 : Prompt) (hname : p1.Name = p2.Name)
    (hnew : ∀ q ∈ db.prompts, q.Name ≠ p1.Name)
    (hseq : db.promptsSeq < maxRowid - 1) (hids : ∀ q ∈ db.prompts, q.ID < maxRowid - 1) :
    ∃ (id : Int) (db1 : DB) (err : GoError),
      CreatePrompt none db p1 = (.ok id, db1) ∧
      (∀ q ∈ db.prompts, q.ID ≠ id) ∧
      CreatePrompt none db1 p2 = (.error err, db1) ∧
      isUniqueConstraintError err = true ∧
      db1.prompts.length = db.prompts.length + 1 ∧
      (∀ (key : String) (env : Env), env.storeFault 0 = none →
        (PromptsHandler ⟨db, key⟩ ⟨"POST", some p1⟩ env).resp =
          ⟨201, .prompt { p1 with ID := id }⟩ ∧
        (PromptsHandler ⟨db, key⟩ ⟨"POST", some p1⟩ env).db = db1 ∧
        (PromptsHandler ⟨db1, key⟩ ⟨"POST", some p2⟩ env).resp.status = 409 ∧
        (PromptsHandler ⟨db1, key⟩ ⟨"POST", some p2⟩ env).db = db1) := by
  have hany : db.prompts.any (fun q => q.Name == p1.Name) = false := by
    simp only [List.any_eq_false]
    intro q hq
    simpa using hnew q hq
  have hids' : ∀ x ∈ db.prompts.map (·.ID), x < maxRowid - 1 := by
    intro x hx
    obtain ⟨q, hq, rfl⟩ := List.mem_map.mp hx
    exact hids q hq
  obtain ⟨id, hid⟩ := newRowid_exists db.promptsSeq (db.prompts.map (·.ID)) (by omega)
    (fun x hx => by have := hids' x hx; omega)
  obtain ⟨hgt, hfresh, -, hle⟩ := newRowid_some _ _ _ hid
  have hidlt : id < maxRowid := by
    have := hle (maxRowid - 1) (by unfold maxRowid; omega) hseq hids'
    omega
  have h1 : CreatePrompt none db p1 =
      (.ok id,
        { db with
          prompts := db.prompts ++ [⟨id, p1.Name, p1.PromptText, p1.Separator, p1.Model⟩]
          promptsSeq := id
          lastInsertRowid := id }) := by
    simp [CreatePrompt, Exec, insertPromptStmt, hid, hany]
  obtain ⟨id2, hid2⟩ := newRowid_exists id (db.prompts.map (·.ID) ++ [id]) hidlt
    (by
      intro x hx
      simp only [List.mem_append, List.mem_singleton] at hx
      rcases hx with hx | rfl
      · have := hids' x hx
        omega
      · exact hidlt)
  have h2 : CreatePrompt none
      { db with
        prompts := db.prompts ++ [⟨id, p1.Name, p1.PromptText, p1.Separator, p1.Model⟩]
        promptsSeq := id
        lastInsertRowid := id } p2 =
      (.error (.text "UNIQUE constraint failed: prompts.name"),
        { db with
          prompts := db.prompts ++ [⟨id, p1.Name, p1.PromptText, p1.Separator, p1.Model⟩]
          promptsSeq := id
          lastInsertRowid := id }) := by
    simp [CreatePrompt, Exec, insertPromptStmt, hid2, hname]
  have hu : isUniqueConstraintError (.text "UNIQUE constraint failed: prompts.name") = true := by
    decide
  refine ⟨_, _, _, h1, ?_, h2, hu, by simp, ?_⟩
  · intro q hq
    have := hfresh q.ID (List.mem_map_of_mem _ hq)
    omega
  · intro key env hf
    refine ⟨?_, ?_, ?_, ?_⟩ <;> simp [PromptsHandler, hf, h1, h2, hu]

/-- Witness for C5 as amended: two prompts named "translate" created in the
sample store. -/
theorem create_prompt_twice_conflict_witness :
    (∀ q ∈ sampleDB.prompts, q.Name ≠ "translate") ∧
    sampleDB.promptsSeq < maxRowid - 1 ∧ (∀ q ∈ sampleDB.prompts, q.ID < maxRowid - 1) ∧
    ∃ (id : Int) (db1 : DB) (err : GoError),
      CreatePrompt none sampleDB ⟨0, "translate", "Translate:", "---", "model-a"⟩ =
        (.ok id, db1) ∧
      (∀ q ∈ sampleDB.prompts, q.ID ≠ id) ∧
      CreatePrompt none db1 ⟨0, "translate", "To French:", "===", "model-b"⟩ =
        (.error err, db1) ∧
      isUniqueConstraintError err = true ∧
      db1.prompts.length = sampleDB.prompts.length + 1 :=
  have hnew : ∀ q ∈ sampleDB.prompts,
      q.Name ≠ (⟨0, "translate", "Translate:", "---", "model-a"⟩ : Prompt).Name := by decide
  have hseq : sampleDB.promptsSeq < maxRowid - 1 := by decide
  have hids : ∀ q ∈ sampleDB.prompts, q.ID < maxRowid - 1 := by decide
  ⟨hnew, hseq, hids,
    match create_prompt_twice_conflict sampleDB ⟨0, "translate", "Translate:", "---", "model-a"⟩
        ⟨0, "translate", "To French:", "===", "model-b"⟩ rfl hnew hseq hids with
    | ⟨id, db1, err, h1, h2, h3, h4, h5, _⟩ => ⟨id, db1, err, h1, h2, h3, h4, h5⟩⟩

/-- Counterexample to C5 as stated.  In a store whose prompts table has used
the largest rowid, the first CreatePrompt of a new name fails with "database or
disk is full" and POST answers 500.  In a store with one rowid left, the first
CreatePrompt succeeds with the largest rowid, and the second one, of the same
name, fails with the same text, which isUniqueConstraintError does not accept,
so that POST answers 500 and not 409. -/
theorem create_prompt_when_rowids_run_out :
    (∀ q ∈ usedUpDB.prompts, q.Name ≠ translate.Name) ∧
    CreatePrompt none usedUpDB translate =
      (.error (.text "database or disk is full"), usedUpDB) ∧
    (PromptsHandler ⟨usedUpDB, "key"⟩ ⟨"POST", some translate⟩ (calmEnv 100)).resp.status =
      500 ∧
    (∀ q ∈ oneRowidLeftDB.prompts, q.Name ≠ translate.Name) ∧
    (CreatePrompt none oneRowidLeftDB translate).1 = .ok maxRowid ∧
    (CreatePrompt none (CreatePrompt none oneRowidLeftDB translate).2 translate).1 =
      .error (.text "database or disk is full") ∧
    isUniqueConstraintError (.text "database or disk is full") = false ∧
    (PromptsHandler ⟨(CreatePrompt none oneRowidLeftDB translate).2, "key"⟩
      ⟨"POST", some translate⟩ (calmEnv 100)).resp.status = 500 := by
  refine ⟨by decide, rfl, by decide, by decide, rfl, rfl, by decide, by decide⟩

/-- Whatever CreateChat returns: an error with the store as it was, or the id of
one new row, appended after the rows of the table with the values of the
record and an id above theirs. -/
theorem createChat_cases (fault : Option GoError) (db : DB) (c : Chat) :
    (∃ e, CreateChat fault db c = (.error e, db)) ∨
    (∃ (row : Chat) (db1 : DB), CreateChat fault db c = (.ok row.ID, db1) ∧
      db1.chats = db.chats ++ [row] ∧ db1.prompts = db.prompts ∧
      row.RequestTimestamp = c.RequestTimestamp ∧ row.PromptID = c.PromptID ∧
      row.PromptName = c.PromptName ∧ row.ModelUsed = c.ModelUsed ∧
      ∀ x ∈ db.chats, x.ID < row.ID) := by
  cases fault with
  | some e => exact Or.inl ⟨e, rfl⟩
  | none =>
    cases hid : newRowid db.chatsSeq (db.chats.map (·.ID)) with
    | none =>
      refine Or.inl ⟨.text "database or disk is full", ?_⟩
      simp [CreateChat, Exec, insertChatStmt, hid]
    | some id =>
      have hrun : CreateChat none db c =
          (.ok id,
            { db with
              chats := db.chats ++ [
                { ID := id, PromptID := c.PromptID, UserInput := c.UserInput,
                  ModelOutput := none, RequestTimestamp := c.RequestTimestamp,
                  ResponseTimestamp := none, TimeTakenMs := none, InputTokenCount := none,
                  OutputTokenCount := none, ErrorMessage := none,
                  PromptName := c.PromptName, ModelUsed := c.ModelUsed }]
              chatsSeq := id
              lastInsertRowid := id }) := by
        simp only [CreateChat, Exec, insertChatStmt, hid]
      refine Or.inr ⟨(⟨id, c.PromptID, c.UserInput, none, c.RequestTimestamp, none, none, none,
        none, none, c.PromptName, c.ModelUsed⟩ : Chat), _, hrun, rfl, rfl, rfl, rfl, rfl, rfl, ?_⟩
      intro x hx
      exact (newRowid_some _ _ _ hid).2.1 x.ID (List.mem_map_of_mem _ hx)

/-- One backfilled row is left alone by a second backfill. -/
theorem backfillRow_idem (prompts : List Prompt) (c : Chat) :
    backfillRow prompts (backfillRow prompts c) = backfillRow prompts c := by
  by_cases hn : needsBackfill c = true
  · cases hf : promptOfChat prompts c with
    | none =>
      have h1 : backfillRow prompts c = { c with PromptName := none, ModelUsed := none } := by
        simp [backfillRow, hn, hf]
      have h2 : needsBackfill { c with PromptName := none, ModelUsed := none } = true := by
        simp only [needsBackfill, Bool.and_eq_true] at hn ⊢
        exact ⟨rfl, hn.2⟩
      have h3 : promptOfChat prompts { c with PromptName := none, ModelUsed := none } = none := by
        simpa [promptOfChat] using hf
      rw [h1]
      simp [backfillRow, h2, h3]
    | some p =>
      have h1 : backfillRow prompts c =
          { c with PromptName := some p.Name, ModelUsed := some p.Model } := by
        simp [backfillRow, hn, hf]
      have h2 : needsBackfill { c with PromptName := some p.Name, ModelUsed := some p.Model } =
          false := by
        simp [needsBackfill]
      rw [h1]
      simp [backfillRow, h2]
  · simp [backfillRow, hn]

/-- C6: backfillMissingChatInfo as a function on the store.  A chat row with a
prompt id and without a prompt name keeps all other columns and gets the name
and model of the prompt with that id (both NULL when no prompt has that id);
every other chat row, every prompt row and the counters stay as they are; and
a second run gives the same store as the first, whatever the store holds. -/
theorem backfill_effect_and_idempotence (db : DB) :
    (backfillMissingChatInfo none db).1 = none ∧
    (backfillMissingChatInfo none db).2 =
      { db with chats := (backfillMissingChatInfo none db).2.chats } ∧
    List.Forall₂
      (fun c c' =>
        (c.PromptID ≠ none ∧ c.PromptName = none →
          c' = { c with PromptName := c'.PromptName, ModelUsed := c'.ModelUsed } ∧
          (∀ p ∈ db.prompts, some p.ID = c.PromptID →
            (∀ q ∈ db.prompts, q.ID = p.ID → q = p) →
            c'.PromptName = some p.Name ∧ c'.ModelUsed = some p.Model) ∧
          ((∀ p ∈ db.prompts, some p.ID ≠ c.PromptID) →
            c'.PromptName = none ∧ c'.ModelUsed = none)) ∧
        (¬ (c.PromptID ≠ none ∧ c.PromptName = none) → c' = c))
      db.chats (backfillMissingChatInfo none db).2.chats ∧
    (backfillMissingChatInfo none (backfillMissingChatInfo none db).2).2 =
      (backfillMissingChatInfo none db).2 := by
  have hrun : ∀ d : DB, backfillMissingChatInfo none d =
      (none, { d with chats := d.chats.map (backfillRow d.prompts) }) := by
    intro d
    simp [backfillMissingChatInfo, Exec, backfillStmt]
  refine ⟨by rw [hrun], by rw [hrun], ?_, ?_⟩
  · rw [hrun]
    simp only [List.forall₂_map_right_iff, List.forall₂_same]
    intro c _
    constructor
    · rintro ⟨hid, hname⟩
      have hn : needsBackfill c = true := by
        simp only [needsBackfill, Bool.and_eq_true, Option.isNone_iff_eq_none,
          Option.isSome_iff_ne_none]
        exact ⟨hname, hid⟩
      refine ⟨by simp [backfillRow, hn], ?_, ?_⟩
      · intro p hp hpid huniq
        have hsome : (db.prompts.find? (fun q => some q.ID == c.PromptID)).isSome = true := by
          rw [List.find?_isSome]
          exact ⟨p, hp, by simp [hpid]⟩
        obtain ⟨q, hq⟩ := Option.isSome_iff_exists.mp hsome
        have hqmem : q ∈ db.prompts := List.mem_of_find?_eq_some hq
        have hqid : some q.ID = c.PromptID := by
          have := List.find?_some hq
          simpa using this
        have hqp : q = p := by
          apply huniq q hqmem
          have : some q.ID = some p.ID := by rw [hqid, hpid]
          exact Option.some.inj this
        subst hqp
        simp [backfillRow, hn, promptOfChat, hq]
      · intro hnone
        have hfind : db.prompts.find? (fun q => some q.ID == c.PromptID) = none := by
          rw [List.find?_eq_none]
          intro q hq
          simpa using hnone q hq
        simp [backfillRow, hn, promptOfChat, hfind]
    · intro hnot
      have hn : needsBackfill c = false := by
        by_contra hcon
        have hcon' : needsBackfill c = true := by simpa using hcon
        simp only [needsBackfill, Bool.and_eq_true, Option.isNone_iff_eq_none,
          Option.isSome_iff_ne_none] at hcon'
        exact hnot ⟨hcon'.2, hcon'.1⟩
      simp [backfillRow, hn]
  · rw [hrun, hrun]
    simp [List.map_map, Function.comp_def, backfillRow_idem]

/-- Witness for C6: the backfill of the legacy store, run once and run twice. -/
theorem backfill_effect_and_idempotence_witness :
    (backfillMissingChatInfo none legacyDB).2.chats.map (fun c => (c.PromptName, c.ModelUsed)) =
      [(some "summarize", some "model-a"), (none, none), (none, none)] ∧
    (backfillMissingChatInfo none (backfillMissingChatInfo none legacyDB).2).2 =
      (backfillMissingChatInfo none legacyDB).2 :=
  ⟨rfl, (backfill_effect_and_idempotence legacyDB).2.2.2⟩

/-- The completion write keeps the number of rows, and changes neither the id
nor the request timestamp of a row, nor any row with another id. -/
theorem updateChatOnCompletion_chats (fault : Option GoError) (db : DB) (c : Chat) :
    ∃ g : Chat → Chat, (UpdateChatOnCompletion fault db c).2.chats = db.chats.map g ∧
      (∀ x, (g x).ID = x.ID ∧ (g x).RequestTimestamp = x.RequestTimestamp) ∧
      (∀ x, x.ID ≠ c.ID → g x = x) := by
  cases fault with
  | some e => exact ⟨id, by simp [UpdateChatOnCompletion, Exec], by simp, by simp⟩
  | none =>
    refine ⟨fun x =>
        if x.ID = c.ID then
          { x with
            ModelOutput := c.ModelOutput, ResponseTimestamp := c.ResponseTimestamp,
            TimeTakenMs := c.TimeTakenMs, InputTokenCount := c.InputTokenCount,
            OutputTokenCount := c.OutputTokenCount, ErrorMessage := c.ErrorMessage }
        else x,
      by simp only [UpdateChatOnCompletion, Exec, updateChatStmt], ?_, ?_⟩
    · intro x
      by_cases hx : x.ID = c.ID
      · simp only [if_pos hx, and_self]
      · simp only [if_neg hx, and_self]
    · intro x hx
      simp only [if_neg hx]

/-- Any two texts are comparable. -/
theorem textLE_total : ∀ a b : List Char, textLE a b = true ∨ textLE b a = true
  | [], _ => Or.inl (by simp [textLE])
  | _ :: _, [] => Or.inr (by simp [textLE])
  | a :: as, b :: bs => by
    rcases Nat.lt_trichotomy a.toNat b.toNat with h | h | h
    · exact Or.inl (by simp [textLE, h])
    · rcases textLE_total as bs with ih | ih
      · exact Or.inl (by simp [textLE, h, ih])
      · exact Or.inr (by simp [textLE, h, ih])
    · exact Or.inr (by simp [textLE, h])

/-- The comparison of texts is transitive. -/
theorem textLE_trans : ∀ a b c : List Char,
    textLE a b = true → textLE b c = true → textLE a c = true
  | [], _, _, _, _ => by simp [textLE]
  | _ :: _, [], _, h, _ => by simp [textLE] at h
  | _ :: _, _ :: _, [], _, h => by simp [textLE] at h
  | a :: as, b :: bs, c :: cs, h1, h2 => by
    simp only [textLE] at h1 h2 ⊢
    by_cases hab : a.toNat < b.toNat
    · by_cases hbc : b.toNat < c.toNat
      · rw [if_pos (by omega)]
      · by_cases hcb : c.toNat < b.toNat
        · simp [hbc, hcb] at h2
        · rw [if_pos (by omega)]
    · by_cases hba : b.toNat < a.toNat
      · simp [hab, hba] at h1
      · simp only [hab, hba, if_false] at h1
        by_cases hbc : b.toNat < c.toNat
        · rw [if_pos (by omega)]
        · by_cases hcb : c.toNat < b.toNat
          · simp [hbc, hcb] at h2
          · simp only [hbc, hcb, if_false] at h2
            rw [if_neg (by omega), if_neg (by omega)]
            exact textLE_trans as bs cs h1 h2

/-- A generate request that adds a row to table `chats` appends it after the
rows already there, with the clock reading of the request, in UTC, as its
timestamp and with an id above all ids of the table. -/
theorem generateHandler_appends_row (key : String) (db : DB) (r : Request GenerateRequest)
    (env : Env)
    (hlen : (GenerateHandler ⟨db, key⟩ r env).db.chats.length = db.chats.length + 1) :
    ∃ row : Chat, (GenerateHandler ⟨db, key⟩ r env).db.chats = db.chats ++ [row] ∧
      row.RequestTimestamp = ⟨env.requestTime, 0⟩ ∧ ∀ c ∈ db.chats, c.ID < row.ID := by
  obtain ⟨method, body⟩ := r
  by_cases hm : method = "POST"
  swap
  · simp [GenerateHandler, hm] at hlen
  subst hm
  cases body with
  | none => simp [GenerateHandler] at hlen
  | some req =>
    cases hq : QueryRow (env.storeFault 0) (fun d => selectPromptByID d req.PromptID) db with
    | error e => simp [GenerateHandler, hq] at hlen
    | ok p =>
      rcases createChat_cases (env.storeFault 1) db (newChat p req env.requestTime) with
        ⟨e, hc⟩ | ⟨row, db1, hc, hrows, -, hts, -, -, -, hfresh⟩
      · simp [GenerateHandler, hq, hc] at hlen
      · obtain ⟨c', hid, -, hdb⟩ :=
          generateHandler_after_create ⟨db, key⟩ req env p _ _ hq hc
        obtain ⟨g, hg, hkeep, hother⟩ :=
          updateChatOnCompletion_chats (env.storeFault 2) db1 c'
        have hold : db.chats.map g = db.chats := by
          conv_rhs => rw [← List.map_id db.chats]
          apply List.map_congr_left
          intro x hx
          have := hfresh x hx
          exact hother x (by rw [hid]; omega)
        rw [hdb, hg, hrows, List.map_append, hold]
        refine ⟨g row, rfl, ?_, ?_⟩
        · rw [(hkeep row).2, hts]
          rfl
        · intro c hcm
          rw [(hkeep row).1]
          exact hfresh c hcm

/-- A series of generate requests that each add a row leaves the old rows of
table `chats` in place and appends one row per request, in the order of the
requests, each with the clock reading of its request and an id above the old ids. -/
theorem serveGenerates_appends (key : String) :
    ∀ (calls : List (Request GenerateRequest × Env)) (db : DB),
      eachCreatesChat key db calls = true →
      ∃ newRows : List Chat,
        (serveGenerates key db calls).chats = db.chats ++ newRows ∧
        newRows.map (·.RequestTimestamp) = calls.map (fun c => (⟨c.2.requestTime, 0⟩ : Time)) ∧
        ∀ n ∈ newRows, ∀ c ∈ db.chats, c.ID < n.ID
  | [], db, _ => ⟨[], by simp [serveGenerates], rfl, by simp⟩
  | (r, env) :: rest, db, h => by
    simp only [eachCreatesChat, Bool.and_eq_true, decide_eq_true_eq] at h
    obtain ⟨row, hrow, hts, hfresh⟩ := generateHandler_appends_row key db r env h.1
    obtain ⟨newRows, hnew, hmap, hids⟩ := serveGenerates_appends key rest _ h.2
    refine ⟨row :: newRows, ?_, ?_, ?_⟩
    · simp only [serveGenerates]
      rw [hnew, hrow]
      simp
    · simp [hts, hmap]
    · intro n hn c hc
      rcases List.mem_cons.mp hn with rfl | hn
      · exact hfresh c hc
      · exact hids n hn c (by rw [hrow]; exact List.mem_append_left _ hc)

/-- Texts with the same first byte compare as their rests do. -/
theorem textLE_cons_same (c : Char) (x y : List Char) :
    textLE (c :: x) (c :: y) = textLE x y := by
  simp [textLE]

/-- A text with a larger first byte is not below one with a smaller first byte. -/
theorem textLE_cons_gt (c d : Char) (x y : List Char) (h : c.toNat < d.toNat) :
    textLE (d :: y) (c :: x) = false := by
  simp only [textLE]
  rw [if_neg (by omega), if_pos h]

/-- Texts with the same start compare as their rests do. -/
theorem textLE_append_same (u x y : List Char) :
    textLE (u ++ x) (u ++ y) = textLE x y := by
  induction u with
  | nil => rfl
  | cons c u ih => simpa [textLE] using ih

/-- The byte of a decimal digit. -/
theorem digitChar_toNat (d : Nat) (h : d < 10) : (digitChar d).toNat = 48 + d := by
  interval_cases d <;> rfl

/-- A digit block of a larger number is above the block of a smaller number of the
same width, whatever follows the two blocks. -/
theorem lowDigits_gt (w : Nat) : ∀ (a b : Nat) (x y : List Char), a < b → b < 10 ^ w →
    textLE (lowDigits w b ++ y) (lowDigits w a ++ x) = false := by
  induction w with
  | zero =>
    intro a b x y hab hb
    simp at hb
    omega
  | succ w ih =>
    intro a b x y hab hb
    simp only [lowDigits, List.append_assoc, List.singleton_append]
    have hb' : b / 10 < 10 ^ w := by
      rw [pow_succ] at hb
      omega
    rcases Nat.lt_or_ge (a / 10) (b / 10) with h | h
    · exact ih _ _ _ _ h hb'
    · have heq : a / 10 = b / 10 := by omega
      rw [heq, textLE_append_same]
      apply textLE_cons_gt
      rw [digitChar_toNat _ (Nat.mod_lt _ (by norm_num)),
        digitChar_toNat _ (Nat.mod_lt _ (by norm_num))]
      omega

/-- A number below `10 ^ w` has at most `w` digits. -/
theorem digitCount_le (f : Nat) : ∀ (n w : Nat), 1 ≤ w → n < 10 ^ w → digitCount f n ≤ w := by
  induction f with
  | zero => intro n w hw _; simpa [digitCount] using hw
  | succ f ih =>
    intro n w hw hn
    simp only [digitCount]
    split
    · exact hw
    · rename_i h10
      obtain ⟨w', rfl⟩ : ∃ w', w = w' + 1 := ⟨w - 1, by omega⟩
      have hw' : 1 ≤ w' := by
        rcases Nat.eq_zero_or_pos w' with h0 | h0
        · subst h0
          simp at hn
          omega
        · exact h0
      have := ih (n / 10) w' hw' (by rw [pow_succ] at hn; omega)
      omega

/-- For a number that fits the width, `appendInt` writes exactly `width` digits. -/
theorem appendInt_eq (x : Int) (w : Nat) (hw : 1 ≤ w) (h0 : 0 ≤ x) (h1 : x < 10 ^ w) :
    appendInt x w = lowDigits w x.toNat := by
  have hx : x.natAbs = x.toNat := by omega
  have hlt : x.toNat < 10 ^ w := by
    have : (x.toNat : Int) < ((10 ^ w : Nat) : Int) := by
      rw [Int.toNat_of_nonneg h0]
      exact_mod_cast h1
    exact_mod_cast this
  simp only [appendInt, hx]
  rw [if_neg (by omega), List.nil_append,
    max_eq_left (digitCount_le _ _ _ hw hlt)]

/-- Removal of the zeros at the end, by the last character. -/
theorem trimZeros_snoc (l : List Char) (c : Char) :
    trimZeros (l ++ [c]) = if c = '0' then trimZeros l else l ++ [c] := by
  by_cases h : c = '0'
  · simp [trimZeros, h, List.dropWhile_cons]
  · simp [trimZeros, h, List.dropWhile_cons]

/-- Only the digit 0 is written as the character 0. -/
theorem digitChar_eq_zero (d : Nat) (h : d < 10) : digitChar d = '0' ↔ d = 0 := by
  interval_cases d <;> decide

/-- Removal of the zeros at the end of a digit block, by the last digit. -/
theorem trimZeros_lowDigits_succ (w n : Nat) :
    trimZeros (lowDigits (w + 1) n) =
      if n % 10 = 0 then trimZeros (lowDigits w (n / 10)) else lowDigits (w + 1) n := by
  simp only [lowDigits, trimZeros_snoc, digitChar_eq_zero _ (Nat.mod_lt n (by norm_num))]

/-- The trimmed block of a larger number is above the full block of a smaller one. -/
theorem trimmed_gt_digits (zc : Char) (zs : List Char) (w : Nat) :
    ∀ (a b : Nat) (x : List Char), a < b → b < 10 ^ w →
      textLE (trimZeros (lowDigits w b) ++ zc :: zs) (lowDigits w a ++ x) = false := by
  induction w with
  | zero =>
    intro a b x hab hb
    simp at hb
    omega
  | succ w ih =>
    intro a b x hab hb
    have hb' : b / 10 < 10 ^ w := by
      rw [pow_succ] at hb
      omega
    rw [trimZeros_lowDigits_succ]
    split
    · rename_i h0
      simp only [lowDigits, List.append_assoc, List.singleton_append]
      exact ih _ _ _ (by omega) hb'
    · exact lowDigits_gt _ _ _ _ _ hab hb

/-- A full block followed by a digit is above the trimmed block of a number that is
not larger, when that is followed by a byte below the digits. -/
theorem digits_gt_trimmed (zc : Char) (zs : List Char) (hz : zc.toNat < 48) (w : Nat) :
    ∀ (a b : Nat) (d : Char) (y : List Char), a ≤ b → b < 10 ^ w → 48 ≤ d.toNat →
      textLE (lowDigits w b ++ d :: y) (trimZeros (lowDigits w a) ++ zc :: zs) = false := by
  induction w with
  | zero =>
    intro a b d y _ _ hd
    simp only [lowDigits, trimZeros, List.reverse_nil, List.dropWhile_nil, List.nil_append]
    exact textLE_cons_gt _ _ _ _ (by omega)
  | succ w ih =>
    intro a b d y hab hb hd
    have hb' : b / 10 < 10 ^ w := by
      rw [pow_succ] at hb
      omega
    rw [trimZeros_lowDigits_succ]
    split
    · simp only [lowDigits, List.append_assoc, List.singleton_append]
      refine ih _ _ _ _ (Nat.div_le_div_right hab) hb' ?_
      rw [digitChar_toNat _ (Nat.mod_lt _ (by norm_num))]
      omega
    · rcases Nat.lt_or_ge a b with h | h
      · exact lowDigits_gt _ _ _ _ _ h hb
      · have : a = b := by omega
        subst this
        rw [textLE_append_same]
        exact textLE_cons_gt _ _ _ _ (by omega)

/-- Trimmed blocks of the same width, each followed by the same text that starts
below the digits, are ordered as the numbers are. -/
theorem trimmed_gt_trimmed (zc : Char) (zs : List Char) (hz : zc.toNat < 48) (w : Nat) :
    ∀ (a b : Nat), a < b → b < 10 ^ w →
      textLE (trimZeros (lowDigits w b) ++ zc :: zs) (trimZeros (lowDigits w a) ++ zc :: zs) =
        false := by
  induction w with
  | zero =>
    intro a b hab hb
    simp at hb
    omega
  | succ w ih =>
    intro a b hab hb
    have hb' : b / 10 < 10 ^ w := by
      rw [pow_succ] at hb
      omega
    rw [trimZeros_lowDigits_succ (n := b)]
    split
    · rename_i hb0
      rw [trimZeros_lowDigits_succ (n := a)]
      split
      · exact ih _ _ (by omega) hb'
      · simp only [lowDigits, List.append_assoc, List.singleton_append]
        exact trimmed_gt_digits zc zs w _ _ _ (by omega) hb'
    · rename_i hb0
      rw [trimZeros_lowDigits_succ (n := a)]
      split
      · simp only [lowDigits, List.append_assoc, List.singleton_append]
        refine digits_gt_trimmed zc zs hz w _ _ _ _ (Nat.div_le_div_right (Nat.le_of_lt hab)) hb' ?_
        rw [digitChar_toNat _ (Nat.mod_lt _ (by norm_num))]
        omega
      · exact lowDigits_gt _ _ _ _ _ hab hb

/-- The fraction texts of two nanosecond counts, each followed by the same zone
text, are ordered as the counts are. -/
theorem fractionText_gt (zc : Char) (zs : List Char) (hz : zc.toNat < 46) (a b : Nat)
    (hab : a < b) (hb : b < 1000000000) :
    textLE (fractionText b ++ zc :: zs) (fractionText a ++ zc :: zs) = false := by
  have hb0 : b ≠ 0 := by omega
  simp only [fractionText, if_neg hb0]
  by_cases ha : a = 0
  · simp only [ha, if_true, List.nil_append, List.cons_append]
    exact textLE_cons_gt _ _ _ _ (by
      have : ('.' : Char).toNat = 46 := rfl
      omega)
  · simp only [if_neg ha, List.cons_append, textLE_cons_same]
    exact trimmed_gt_trimmed zc zs (by omega) 9 a b hab (by norm_num; omega)

/-- The year of the era and the day of the year that a day of a 400-year era
splits into are in range. -/
theorem dayOfEra_split (doe : Int) (h0 : 0 ≤ doe) (h1 : doe ≤ 146096) :
    0 ≤ (doe - doe / 1460 + doe / 36524 - doe / 146096) / 365 ∧
    (doe - doe / 1460 + doe / 36524 - doe / 146096) / 365 ≤ 399 ∧
    0 ≤ doe - (365 * ((doe - doe / 1460 + doe / 36524 - doe / 146096) / 365) +
      (doe - doe / 1460 + doe / 36524 - doe / 146096) / 365 / 4 -
      (doe - doe / 1460 + doe / 36524 - doe / 146096) / 365 / 100) ∧
    doe - (365 * ((doe - doe / 1460 + doe / 36524 - doe / 146096) / 365) +
      (doe - doe / 1460 + doe / 36524 - doe / 146096) / 365 / 4 -
      (doe - doe / 1460 + doe / 36524 - doe / 146096) / 365 / 100) ≤ 365 := by
  refine ⟨by omega, by omega, ?_⟩
  have hq : 0 ≤ doe / 1460 ∧ doe / 1460 ≤ 100 := by omega
  obtain ⟨hq0, hq1⟩ := hq
  have hdq : doe = 1460 * (doe / 1460) + doe % 1460 := by omega
  have hr : 0 ≤ doe % 1460 ∧ doe % 1460 < 1460 := by omega
  generalize doe / 1460 = q at *
  generalize doe % 1460 = r at *
  subst hdq
  interval_cases q <;>
    first
    | omega
    | (rcases Int.lt_or_le r 24 with h | h <;> omega)
    | (rcases Int.lt_or_le r 48 with h | h <;> omega)
    | (rcases Int.lt_or_le r 72 with h | h <;> omega)

/-- The parts a day number splits into: era, year of the era and day of the year. -/
theorem civilFromDays_parts (z : Int) : ∃ era yoe doy : Int,
    0 ≤ yoe ∧ yoe ≤ 399 ∧ 0 ≤ doy ∧ doy ≤ 365 ∧
    0 ≤ 365 * yoe + yoe / 4 - yoe / 100 + doy ∧
    365 * yoe + yoe / 4 - yoe / 100 + doy ≤ 146096 ∧
    z + 719468 = 146097 * era + (365 * yoe + yoe / 4 - yoe / 100 + doy) ∧
    civilFromDays z =
      { year := yoe + era * 400 + (5 * doy + 2) / 153 / 10
        month := (5 * doy + 2) / 153 + 3 - 12 * ((5 * doy + 2) / 153 / 10)
        day := doy - (153 * ((5 * doy + 2) / 153) + 2) / 5 + 1 } := by
  have hdoe : 0 ≤ (z + 719468) % 146097 ∧ (z + 719468) % 146097 ≤ 146096 := by omega
  have hz : z + 719468 = 146097 * ((z + 719468) / 146097) + (z + 719468) % 146097 := by omega
  obtain ⟨h1, h2, h3, h4⟩ := dayOfEra_split ((z + 719468) % 146097) hdoe.1 hdoe.2
  refine ⟨(z + 719468) / 146097,
    ((z + 719468) % 146097 - (z + 719468) % 146097 / 1460 + (z + 719468) % 146097 / 36524 -
      (z + 719468) % 146097 / 146096) / 365,
    (z + 719468) % 146097 -
      (365 * (((z + 719468) % 146097 - (z + 719468) % 146097 / 1460 +
        (z + 719468) % 146097 / 36524 - (z + 719468) % 146097 / 146096) / 365) +
      ((z + 719468) % 146097 - (z + 719468) % 146097 / 1460 +
        (z + 719468) % 146097 / 36524 - (z + 719468) % 146097 / 146096) / 365 / 4 -
      ((z + 719468) % 146097 - (z + 719468) % 146097 / 1460 +
        (z + 719468) % 146097 / 36524 - (z + 719468) % 146097 / 146096) / 365 / 100),
    h1, h2, h3, h4, ?_, ?_, ?_, rfl⟩
  · generalize ((z + 719468) % 146097 - (z + 719468) % 146097 / 1460 +
        (z + 719468) % 146097 / 36524 - (z + 719468) % 146097 / 146096) / 365 = yoe at *
    omega
  · generalize ((z + 719468) % 146097 - (z + 719468) % 146097 / 1460 +
        (z + 719468) % 146097 / 36524 - (z + 719468) % 146097 / 146096) / 365 = yoe at *
    omega
  · generalize ((z + 719468) % 146097 - (z + 719468) % 146097 / 1460 +
        (z + 719468) % 146097 / 36524 - (z + 719468) % 146097 / 146096) / 365 = yoe at *
    omega

/-- A later year of the era starts at least 365 days later. -/
theorem yearStart_step (a b : Int) (h : a < b) :
    365 * a + a / 4 - a / 100 + 365 ≤ 365 * b + b / 4 - b / 100 := by
  omega

/-- Month index and day of the month grow with the day of the year. -/
theorem monthDay_lt (a b : Int) (h : a < b) :
    (5 * a + 2) / 153 < (5 * b + 2) / 153 ∨
    ((5 * a + 2) / 153 = (5 * b + 2) / 153 ∧
      a - (153 * ((5 * a + 2) / 153) + 2) / 5 + 1 < b - (153 * ((5 * b + 2) / 153) + 2) / 5 + 1) := by
  omega

/-- Month index and day of the month are in range. -/
theorem monthDay_range (doy : Int) (h0 : 0 ≤ doy) (h1 : doy ≤ 365) :
    0 ≤ (5 * doy + 2) / 153 ∧ (5 * doy + 2) / 153 ≤ 11 ∧
    1 ≤ doy - (153 * ((5 * doy + 2) / 153) + 2) / 5 + 1 ∧
    doy - (153 * ((5 * doy + 2) / 153) + 2) / 5 + 1 ≤ 31 := by
  have hmp : 0 ≤ (5 * doy + 2) / 153 ∧ (5 * doy + 2) / 153 ≤ 11 := by omega
  refine ⟨hmp.1, hmp.2, ?_⟩
  have hdef : 153 * ((5 * doy + 2) / 153) ≤ 5 * doy + 2 ∧
      5 * doy + 2 < 153 * ((5 * doy + 2) / 153) + 153 := by omega
  generalize (5 * doy + 2) / 153 = mp at *
  obtain ⟨hm0, hm1⟩ := hmp
  interval_cases mp <;> omega

/-- The month index is below 10 from March to December and 10 or 11 for January
and February. -/
theorem monthIndex_split (mp : Int) (h0 : 0 ≤ mp) (h1 : mp ≤ 11) :
    (mp ≤ 9 ∧ mp / 10 = 0) ∨ (10 ≤ mp ∧ mp / 10 = 1) := by
  omega

/-- Month and day of a calendar date are in range. -/
theorem civilFromDays_range (z : Int) :
    1 ≤ (civilFromDays z).month ∧ (civilFromDays z).month ≤ 12 ∧
    1 ≤ (civilFromDays z).day ∧ (civilFromDays z).day ≤ 31 := by
  obtain ⟨era, yoe, doy, -, -, hd0, hd1, -, -, -, hc⟩ := civilFromDays_parts z
  rw [hc]
  simp only
  obtain ⟨hm0, hm1, hday0, hday1⟩ := monthDay_range doy hd0 hd1
  rcases monthIndex_split _ hm0 hm1 with ⟨h9, hc0⟩ | ⟨h10, hc1⟩
  · rw [hc0]
    generalize (5 * doy + 2) / 153 = mp at *
    omega
  · rw [hc1]
    generalize (5 * doy + 2) / 153 = mp at *
    omega

/-- A later day has the later calendar date: year, month and day compared in turn. -/
theorem civilFromDays_lt (z1 z2 : Int) (h : z1 < z2) :
    (civilFromDays z1).year < (civilFromDays z2).year ∨
    ((civilFromDays z1).year = (civilFromDays z2).year ∧
      ((civilFromDays z1).month < (civilFromDays z2).month ∨
        ((civilFromDays z1).month = (civilFromDays z2).month ∧
          (civilFromDays z1).day < (civilFromDays z2).day))) := by
  obtain ⟨era1, yoe1, doy1, hy1, hy1', hd1, hd1', hl1, hu1, hz1, hc1⟩ := civilFromDays_parts z1
  obtain ⟨era2, yoe2, doy2, hy2, hy2', hd2, hd2', hl2, hu2, hz2, hc2⟩ := civilFromDays_parts z2
  rw [hc1, hc2]
  simp only
  have key : yoe1 + 400 * era1 < yoe2 + 400 * era2 ∨
      (yoe1 + 400 * era1 = yoe2 + 400 * era2 ∧ doy1 < doy2) := by
    generalize hg1 : 365 * yoe1 + yoe1 / 4 - yoe1 / 100 = g1 at *
    generalize hg2 : 365 * yoe2 + yoe2 / 4 - yoe2 / 100 = g2 at *
    rcases lt_trichotomy era1 era2 with he | he | he
    · left; omega
    · subst he
      rcases lt_trichotomy yoe1 yoe2 with hy | hy | hy
      · left; omega
      · subst hy
        right
        exact ⟨rfl, by omega⟩
      · exfalso
        have := yearStart_step yoe2 yoe1 hy
        rw [hg1, hg2] at this
        omega
    · exfalso; omega
  obtain ⟨hm1, hm1', -, -⟩ := monthDay_range doy1 hd1 hd1'
  obtain ⟨hm2, hm2', -, -⟩ := monthDay_range doy2 hd2 hd2'
  have hs1 := monthIndex_split _ hm1 hm1'
  have hs2 := monthIndex_split _ hm2 hm2'
  rcases key with hk | ⟨hk, hd⟩
  · generalize (5 * doy1 + 2) / 153 = mp1 at *
    generalize (5 * doy2 + 2) / 153 = mp2 at *
    generalize (153 * mp1 + 2) / 5 = dd1 at *
    generalize (153 * mp2 + 2) / 5 = dd2 at *
    rcases hs1 with ⟨ha, hb⟩ | ⟨ha, hb⟩ <;> rcases hs2 with ⟨hc, hd⟩ | ⟨hc, hd⟩ <;>
      rw [hb, hd] <;> omega
  · have hmd := monthDay_lt doy1 doy2 hd
    generalize (5 * doy1 + 2) / 153 = mp1 at *
    generalize (5 * doy2 + 2) / 153 = mp2 at *
    generalize (153 * mp1 + 2) / 5 = dd1 at *
    generalize (153 * mp2 + 2) / 5 = dd2 at *
    rcases hs1 with ⟨ha, hb⟩ | ⟨ha, hb⟩ <;> rcases hs2 with ⟨hc, hd'⟩ | ⟨hc, hd'⟩ <;>
      rw [hb, hd'] <;> omega

/-- One digit block in the comparison of two texts of the same layout. -/
theorem digitsStep (w : Nat) (a b : Int) (x y : List Char) (ha : 0 ≤ a) (hb : b < 10 ^ w)
    (h : a < b ∨ (a = b ∧ textLE y x = false)) :
    textLE (lowDigits w b.toNat ++ y) (lowDigits w a.toNat ++ x) = false := by
  rcases h with h | ⟨h, hr⟩
  · apply lowDigits_gt
    · omega
    · have : ((b.toNat : Nat) : Int) < ((10 ^ w : Nat) : Int) := by
        rw [Int.toNat_of_nonneg (by omega)]
        exact_mod_cast hb
      exact_mod_cast this
  · subst h
    rw [textLE_append_same]
    exact hr

/-- One digit block and the separator after it in the comparison of two texts of
the same layout. -/
theorem digitsSepStep (w : Nat) (a b : Int) (c : Char) (x y : List Char) (ha : 0 ≤ a)
    (hb : b < 10 ^ w) (h : a < b ∨ (a = b ∧ textLE y x = false)) :
    textLE (lowDigits w b.toNat ++ c :: y) (lowDigits w a.toNat ++ c :: x) = false := by
  apply digitsStep w a b _ _ ha hb
  rcases h with h | ⟨h, hr⟩
  · exact Or.inl h
  · exact Or.inr ⟨h, by rw [textLE_cons_same]; exact hr⟩

/-- The zone text starts with a sign, a byte below the point and the digits. -/
theorem zoneText_head (offset : Int) :
    ∃ zc zs, zoneText offset = zc :: zs ∧ zc.toNat < 46 := by
  simp only [zoneText]
  split
  · exact ⟨_, _, rfl, by decide⟩
  · exact ⟨_, _, rfl, by decide⟩

/-- The text of a time whose year, in its zone, has four digits, block by block. -/
theorem timestampText_blocks (t : Time) (h0 : 0 ≤ t.year) (h1 : t.year ≤ 9999) :
    timestampText t =
      lowDigits 4
        (civilFromDays ((t.unixNano + t.offset * 1000000000) / 1000000000 / 86400)).year.toNat ++
      '-' :: (lowDigits 2
        (civilFromDays ((t.unixNano + t.offset * 1000000000) / 1000000000 / 86400)).month.toNat ++
      '-' :: (lowDigits 2
        (civilFromDays ((t.unixNano + t.offset * 1000000000) / 1000000000 / 86400)).day.toNat ++
      ' ' :: (lowDigits 2
        ((t.unixNano + t.offset * 1000000000) / 1000000000 % 86400 / 3600).toNat ++
      ':' :: (lowDigits 2
        ((t.unixNano + t.offset * 1000000000) / 1000000000 % 86400 % 3600 / 60).toNat ++
      ':' :: (lowDigits 2
        ((t.unixNano + t.offset * 1000000000) / 1000000000 % 86400 % 60).toNat ++
      (fractionText ((t.unixNano + t.offset * 1000000000) % 1000000000).toNat ++
        zoneText t.offset)))))) := by
  simp only [Time.year] at h0 h1
  obtain ⟨hm0, hm1, hd0, hd1⟩ :=
    civilFromDays_range ((t.unixNano + t.offset * 1000000000) / 1000000000 / 86400)
  simp only [timestampText]
  generalize t.unixNano + t.offset * 1000000000 = wall at *
  rw [appendInt_eq _ 4 (by norm_num) h0 (by norm_num; omega),
    appendInt_eq _ 2 (by norm_num) (by omega) (by norm_num; omega),
    appendInt_eq _ 2 (by norm_num) (by omega) (by norm_num; omega),
    appendInt_eq _ 2 (by norm_num) (by omega) (by norm_num; omega),
    appendInt_eq _ 2 (by norm_num) (by omega) (by norm_num; omega),
    appendInt_eq _ 2 (by norm_num) (by omega) (by norm_num; omega)]
  simp only [List.append_assoc, List.singleton_append, List.cons_append, List.nil_append]

/-- Of two times of one zone whose years have four digits, the later one has
the larger text. -/
theorem timestampText_lt (s t : Time) (hzone : s.offset = t.offset)
    (hst : s.unixNano < t.unixNano)
    (hs0 : 0 ≤ s.year) (hs1 : s.year ≤ 9999) (ht0 : 0 ≤ t.year) (ht1 : t.year ≤ 9999) :
    textLE (timestampText t) (timestampText s) = false := by
  rw [timestampText_blocks s hs0 hs1, timestampText_blocks t ht0 ht1]
  simp only [Time.year] at hs0 hs1 ht0 ht1
  obtain ⟨zc, zs, hz, hzc⟩ := zoneText_head t.offset
  rw [hzone, hz]
  have hab : s.unixNano + t.offset * 1000000000 < t.unixNano + t.offset * 1000000000 := by
    omega
  rw [hzone] at hs0 hs1
  generalize s.unixNano + t.offset * 1000000000 = a at *
  generalize t.unixNano + t.offset * 1000000000 = b at *
  obtain ⟨hma0, hma1, hda0, hda1⟩ := civilFromDays_range (a / 1000000000 / 86400)
  obtain ⟨hmb0, hmb1, hdb0, hdb1⟩ := civilFromDays_range (b / 1000000000 / 86400)
  have hsecs : a / 1000000000 < b / 1000000000 ∨
      (a / 1000000000 = b / 1000000000 ∧ a % 1000000000 < b % 1000000000) := by omega
  have hfrac : a / 1000000000 = b / 1000000000 → a % 1000000000 < b % 1000000000 →
      textLE (fractionText (b % 1000000000).toNat ++ zc :: zs)
        (fractionText (a % 1000000000).toNat ++ zc :: zs) = false := by
    intro _ hlt
    apply fractionText_gt zc zs hzc
    · omega
    · omega
  generalize hsa : a / 1000000000 = sa at *
  generalize hsb : b / 1000000000 = sb at *
  have hdays : sa / 86400 < sb / 86400 ∨
      (sa / 86400 = sb / 86400 ∧ (sa % 86400 < sb % 86400 ∨ sa = sb)) := by omega
  rcases hdays with hd | ⟨hd, hsod⟩
  · have hlt := civilFromDays_lt _ _ hd
    generalize civilFromDays (sa / 86400) = da at *
    generalize civilFromDays (sb / 86400) = db at *
    apply digitsSepStep 4 _ _ _ _ _ hs0 (by norm_num; omega)
    rcases hlt with h | ⟨h, hlt⟩
    · exact Or.inl h
    · refine Or.inr ⟨h, ?_⟩
      apply digitsSepStep 2 _ _ _ _ _ (by omega) (by norm_num; omega)
      rcases hlt with h | ⟨h, hlt⟩
      · exact Or.inl h
      · refine Or.inr ⟨h, ?_⟩
        apply digitsSepStep 2 _ _ _ _ _ (by omega) (by norm_num; omega)
        exact Or.inl hlt
  · rw [hd]
    rw [textLE_append_same, textLE_cons_same, textLE_append_same, textLE_cons_same,
      textLE_append_same, textLE_cons_same]
    apply digitsSepStep 2 _ _ _ _ _ (by omega) (by norm_num; omega)
    rcases hsod with hsod | hsod
    · have hh : sa % 86400 / 3600 < sb % 86400 / 3600 ∨
          (sa % 86400 / 3600 = sb % 86400 / 3600 ∧
            (sa % 86400 % 3600 / 60 < sb % 86400 % 3600 / 60 ∨
              (sa % 86400 % 3600 / 60 = sb % 86400 % 3600 / 60 ∧
                sa % 86400 % 60 < sb % 86400 % 60))) := by omega
      rcases hh with h | ⟨h, hh⟩
      · exact Or.inl h
      · refine Or.inr ⟨h, ?_⟩
        apply digitsSepStep 2 _ _ _ _ _ (by omega) (by norm_num; omega)
        rcases hh with h | ⟨h, hh⟩
        · exact Or.inl h
        · refine Or.inr ⟨h, ?_⟩
          apply digitsStep 2 _ _ _ _ (by omega) (by norm_num; omega)
          exact Or.inl hh
    · subst hsod
      refine Or.inr ⟨rfl, ?_⟩
      apply digitsSepStep 2 _ _ _ _ _ (by omega) (by norm_num; omega)
      refine Or.inr ⟨rfl, ?_⟩
      apply digitsStep 2 _ _ _ _ (by omega) (by norm_num; omega)
      refine Or.inr ⟨rfl, ?_⟩
      rcases hsecs with h | ⟨_, h⟩
      · omega
      · exact hfrac rfl h

/-- Sorting by descending text key gives a list with the same members whose
keys descend. -/
theorem sortedByKey {α : Type} (key : α → List Char) (l : List α) :
    (l.insertionSort (fun a b => textLE (key b) (key a) = true)).Perm l ∧
    (l.insertionSort (fun a b => textLE (key b) (key a) = true)).Pairwise
      (fun a b => textLE (key b) (key a) = true) := by
  haveI : IsTotal α (fun a b => textLE (key b) (key a) = true) :=
    ⟨fun a b => (textLE_total _ _).symm⟩
  haveI : IsTrans α (fun a b => textLE (key b) (key a) = true) :=
    ⟨fun _ _ _ hab hbc => textLE_trans _ _ _ hbc hab⟩
  exact ⟨List.perm_insertionSort _ _, List.sorted_insertionSort _ _⟩

/-- Members appended with strictly increasing text keys, told from the older
ones by their ids, come out of the descending sort in reverse order. -/
theorem sortedByKey_reverses {α : Type} (key : α → List Char) (idOf : α → Int)
    (old new : List α)
    (hids : ∀ n ∈ new, ∀ c ∈ old, idOf c < idOf n)
    (hkeys : new.Pairwise (fun a b => textLE (key b) (key a) = false)) :
    ((old ++ new).insertionSort (fun a b => textLE (key b) (key a) = true)).filter
        (fun c => decide (idOf c ∈ new.map idOf)) =
      new.reverse := by
  haveI : IsAntisymm α (fun a b => textLE (key a) (key b) = false) :=
    ⟨fun a b hab hba => by
      rcases textLE_total (key a) (key b) with h | h
      · rw [h] at hab
        exact absurd hab (by simp)
      · rw [h] at hba
        exact absurd hba (by simp)⟩
  obtain ⟨hperm, hsorted⟩ := sortedByKey key (old ++ new)
  have hold : old.filter (fun c => decide (idOf c ∈ new.map idOf)) = [] := by
    rw [List.filter_eq_nil_iff]
    intro c hc hmem
    have hmem' : idOf c ∈ new.map idOf := by simpa using hmem
    obtain ⟨n, hn, hnc⟩ := List.mem_map.mp hmem'
    have := hids n hn c hc
    omega
  have hkept : new.filter (fun c => decide (idOf c ∈ new.map idOf)) = new := by
    rw [List.filter_eq_self]
    intro c hc
    simpa using List.mem_map_of_mem idOf hc
  have hp1 : (((old ++ new).insertionSort (fun a b => textLE (key b) (key a) = true)).filter
      (fun c => decide (idOf c ∈ new.map idOf))).Perm new := by
    have := hperm.filter (fun c => decide (idOf c ∈ new.map idOf))
    rwa [List.filter_append, hold, hkept, List.nil_append] at this
  have hsym : new.Pairwise (fun a b =>
      textLE (key b) (key a) = false ∨ textLE (key a) (key b) = false) :=
    hkeys.imp (fun h => Or.inl h)
  have hsym1 : (((old ++ new).insertionSort (fun a b => textLE (key b) (key a) = true)).filter
      (fun c => decide (idOf c ∈ new.map idOf))).Pairwise (fun a b =>
      textLE (key b) (key a) = false ∨ textLE (key a) (key b) = false) :=
    (hp1.pairwise_iff (fun h => Or.symm h)).mpr hsym
  have hs1 : (((old ++ new).insertionSort (fun a b => textLE (key b) (key a) = true)).filter
      (fun c => decide (idOf c ∈ new.map idOf))).Pairwise
      (fun a b => textLE (key a) (key b) = false) := by
    have h1 := hsorted.sublist (List.filter_sublist
      (p := fun c => decide (idOf c ∈ new.map idOf))
      ((old ++ new).insertionSort (fun a b => textLE (key b) (key a) = true)))
    refine (h1.and hsym1).imp ?_
    rintro a b ⟨hle, h | h⟩
    · rw [hle] at h
      exact absurd h (by simp)
    · exact h
  have hs2 : new.reverse.Pairwise (fun a b => textLE (key a) (key b) = false) :=
    List.pairwise_reverse.mpr hkeys
  exact List.eq_of_perm_of_sorted (hp1.trans (List.reverse_perm new).symm) hs1 hs2

/-- A relation between the images of the members of a list holds pairwise in a
second list with the same images. -/
theorem pairwise_of_map_eq {α β γ : Type} (f : α → γ) (g : β → γ) (R : γ → γ → Prop)
    (l : List α) (m : List β) (h : m.map g = l.map f)
    (hl : l.Pairwise (fun a b => R (f a) (f b))) : m.Pairwise (fun a b => R (g a) (g b)) := by
  have h1 : (l.map f).Pairwise R := List.pairwise_map.mpr hl
  rw [← h] at h1
  exact List.pairwise_map.mp h1

/-- The instant a time with a four-digit year is scanned back with: moved by
the seconds of its zone offset beyond whole minutes, or the zero time when the
offset is above 24 hours. -/
theorem scanTime_unixNano (t : Time) (h0 : 0 ≤ t.year) (h1 : t.year ≤ 9999) :
    (scanTime t).unixNano =
      if (t.offset.tdiv 60).natAbs / 60 ≤ 24 then
        t.unixNano + (t.offset - t.offset.tdiv 60 * 60) * 1000000000
      else zeroTime.unixNano := by
  by_cases hh : (t.offset.tdiv 60).natAbs / 60 ≤ 24
  · rw [if_pos hh]
    simp only [scanTime, if_pos (And.intro h0 (And.intro h1 hh))]
  · rw [if_neg hh]
    have hc : ¬ (0 ≤ t.year ∧ t.year ≤ 9999 ∧ (t.offset.tdiv 60).natAbs / 60 ≤ 24) :=
      fun h => hh h.2.2
    simp only [scanTime, if_neg hc]

/-- C7, as amended: a listing read without engine failure returns every row of
table chats exactly once, scanned, in descending order of the text that is
stored for the request timestamp.  When all rows carry request timestamps of
one zone offset with years 0000 to 9999 (GenerateHandler writes UTC), the
request timestamp of each listed record, as stored and as returned, is at or
after that of every later one.  And when a series of generate requests that
each add a chat record reads strictly increasing request timestamps with years
0000 to 9999, the listing taken afterwards shows the records of the series in
reverse order of their insertion. -/
theorem getChats_descending_and_reverse_insertion (db : DB) :
    (∃ rows : List Chat, rows.Perm db.chats ∧
      GetChats none none db = .ok (rows.map scanChat) ∧
      rows.Pairwise (fun a b =>
        textLE (timestampText b.RequestTimestamp) (timestampText a.RequestTimestamp) = true) ∧
      ((∃ offset : Int, ∀ c ∈ db.chats, c.RequestTimestamp.offset = offset ∧
          0 ≤ c.RequestTimestamp.year ∧ c.RequestTimestamp.year ≤ 9999) →
        rows.Pairwise (fun a b =>
          b.RequestTimestamp.unixNano ≤ a.RequestTimestamp.unixNano) ∧
        (rows.map scanChat).Pairwise (fun a b =>
          b.RequestTimestamp.unixNano ≤ a.RequestTimestamp.unixNano))) ∧
    (∀ (key : String) (calls : List (Request GenerateRequest × Env)),
      eachCreatesChat key db calls = true →
      (calls.map (fun c => c.2.requestTime)).Pairwise (· < ·) →
      (∀ c ∈ calls, 0 ≤ (Time.mk c.2.requestTime 0).year ∧
        (Time.mk c.2.requestTime 0).year ≤ 9999) →
      ∃ newRows cs,
        (serveGenerates key db calls).chats = db.chats ++ newRows ∧
        newRows.length = calls.length ∧
        GetChats none none (serveGenerates key db calls) = .ok cs ∧
        (cs.filter (fun c => decide (c.ID ∈ newRows.map (·.ID)))).map (·.ID) =
          (newRows.map (·.ID)).reverse) := by
  constructor
  · obtain ⟨hperm, hsorted⟩ :=
      sortedByKey (fun c : Chat => timestampText c.RequestTimestamp) db.chats
    refine ⟨chatsByTimestampDesc db, hperm, rfl, hsorted, ?_⟩
    rintro ⟨offset, hzone⟩
    have hzone' : ∀ c ∈ chatsByTimestampDesc db, c.RequestTimestamp.offset = offset ∧
        0 ≤ c.RequestTimestamp.year ∧ c.RequestTimestamp.year ≤ 9999 :=
      fun c hc => hzone c (hperm.mem_iff.mp hc)
    have hstored : (chatsByTimestampDesc db).Pairwise (fun a b =>
        b.RequestTimestamp.unixNano ≤ a.RequestTimestamp.unixNano) := by
      refine List.Pairwise.imp_of_mem ?_ hsorted
      intro a b ha hb hle
      by_contra hlt
      have hlt' : a.RequestTimestamp.unixNano < b.RequestTimestamp.unixNano := by omega
      obtain ⟨hza, ha0, ha1⟩ := hzone' a ha
      obtain ⟨hzb, hb0, hb1⟩ := hzone' b hb
      have hgt := timestampText_lt a.RequestTimestamp b.RequestTimestamp (hza.trans hzb.symm)
        hlt' ha0 ha1 hb0 hb1
      exact absurd (hle.symm.trans hgt) (by simp)
    refine ⟨hstored, ?_⟩
    rw [List.pairwise_map]
    refine List.Pairwise.imp_of_mem ?_ hstored
    intro a b ha hb hle
    obtain ⟨hza, ha0, ha1⟩ := hzone' a ha
    obtain ⟨hzb, hb0, hb1⟩ := hzone' b hb
    show (scanTime b.RequestTimestamp).unixNano ≤ (scanTime a.RequestTimestamp).unixNano
    rw [scanTime_unixNano _ ha0 ha1, scanTime_unixNano _ hb0 hb1, hza, hzb]
    split
    · omega
    · exact le_refl _
  · intro key calls hcreate hclock hyears
    obtain ⟨newRows, hnew, hmap, hids⟩ := serveGenerates_appends key calls db hcreate
    have hcalls : calls.Pairwise (fun c d =>
        textLE (timestampText ⟨d.2.requestTime, 0⟩) (timestampText ⟨c.2.requestTime, 0⟩) =
          false) := by
      refine List.Pairwise.imp_of_mem ?_ (List.pairwise_map.mp hclock)
      intro c d hc hd hlt
      exact timestampText_lt ⟨c.2.requestTime, 0⟩ ⟨d.2.requestTime, 0⟩ rfl hlt
        (hyears c hc).1 (hyears c hc).2 (hyears d hd).1 (hyears d hd).2
    have hkeys : newRows.Pairwise (fun a b =>
        textLE (timestampText b.RequestTimestamp) (timestampText a.RequestTimestamp) =
          false) := by
      exact pairwise_of_map_eq (fun c : Request GenerateRequest × Env => (⟨c.2.requestTime, 0⟩ : Time))
        (fun c : Chat => c.RequestTimestamp)
        (fun s t => textLE (timestampText t) (timestampText s) = false) calls newRows hmap hcalls
    have hrev := sortedByKey_reverses (fun c : Chat => timestampText c.RequestTimestamp)
      (fun c : Chat => c.ID) db.chats newRows hids hkeys
    refine ⟨newRows, selectChats (serveGenerates key db calls), hnew, ?_, rfl, ?_⟩
    · simpa using congrArg List.length hmap
    · have hfilter : (selectChats (serveGenerates key db calls)).filter
          (fun c => decide (c.ID ∈ newRows.map (·.ID))) =
          ((chatsByTimestampDesc (serveGenerates key db calls)).filter
            (fun c => decide (c.ID ∈ newRows.map (·.ID)))).map scanChat := by
        simp only [selectChats, List.filter_map]
        rfl
      rw [hfilter, List.map_map]
      have hid : ((fun c : Chat => c.ID) ∘ scanChat) = (fun c : Chat => c.ID) := rfl
      rw [hid]
      simp only [chatsByTimestampDesc, hnew]
      rw [hrev, List.map_reverse]

/-- Witness for C7 as amended: three requests served while the clock advances. -/
theorem getChats_descending_and_reverse_insertion_witness :
    eachCreatesChat "key" sampleDB clockAdvancing = true ∧
    (clockAdvancing.map (fun c => c.2.requestTime)).Pairwise (· < ·) ∧
    (∀ c ∈ clockAdvancing, 0 ≤ (Time.mk c.2.requestTime 0).year ∧
      (Time.mk c.2.requestTime 0).year ≤ 9999) ∧
    ∃ newRows cs,
      (serveGenerates "key" sampleDB clockAdvancing).chats = sampleDB.chats ++ newRows ∧
      newRows.length = clockAdvancing.length ∧
      GetChats none none (serveGenerates "key" sampleDB clockAdvancing) = .ok cs ∧
      (cs.filter (fun c => decide (c.ID ∈ newRows.map (·.ID)))).map (·.ID) =
        (newRows.map (·.ID)).reverse :=
  ⟨by decide, by decide, by decide,
    (getChats_descending_and_reverse_insertion sampleDB).2 "key" clockAdvancing
      (by decide) (by decide) (by decide)⟩

/-- Counterexample to C7 as stated, in three parts.  Two generate requests each
add a chat record while the clock reads 200 and then 100: the listing shows
the two records in the order of their insertion.  A store holds a row written
at noon UTC and a row written an hour later in the zone seven hours west: the
listing shows the earlier row first.  Two generate requests each add a chat
record in the last second of the year 9999 and in the first second of the year
10000: the listing shows the two records in the order of their insertion. -/
theorem getChats_not_by_time_nor_insertion :
    (eachCreatesChat "key" sampleDB clockSetBack = true ∧
      (serveGenerates "key" sampleDB clockSetBack).chats.map (·.ID) = [1, 2] ∧
      ∃ cs, GetChats none none (serveGenerates "key" sampleDB clockSetBack) = .ok cs ∧
        cs.map (·.ID) = [1, 2]) ∧
    (∃ cs, GetChats none none mixedZoneDB = .ok cs ∧
      cs.map (fun c => c.RequestTimestamp.unixNano) =
        [1709208000000000000, 1709211600000000000]) ∧
    (eachCreatesChat "key" sampleDB yearTenThousand = true ∧
      (yearTenThousand.map (fun c => c.2.requestTime)).Pairwise (· < ·) ∧
      (serveGenerates "key" sampleDB yearTenThousand).chats.map (·.ID) = [1, 2] ∧
      ∃ cs, GetChats none none (serveGenerates "key" sampleDB yearTenThousand) = .ok cs ∧
        cs.map (·.ID) = [1, 2]) :=
  ⟨⟨by decide, by decide, _, rfl, by decide⟩, ⟨_, rfl, by decide⟩,
    ⟨by decide, by decide, by decide, _, rfl, by decide⟩⟩

end GeminiTool
